import Mathlib

/-!
Shallow embedding of `src/main.rs` of the exifgeo repository: a tool that
extracts GPS geotags from JPEG EXIF data and emits a GPX track.

Modelling conventions:
* Rust `u8`/`u16`/`u32`/`u64`/`usize` values are modelled as `Nat`; where the
  source performs an unchecked subtraction that can underflow, the model uses
  `checked_sub`, which returns the overflow-check failure (a Rust panic in a
  debug build) explicitly.
* `f64` values produced by `num as f64 / denom as f64` are modelled by `FVal`:
  an exact rational for a finite quotient, plus `inf` and `nan` for the
  division-by-zero cases.  Trigonometric code (`distance_from`) is modelled
  over the real numbers.
* `Result<T>` is modelled as `Except Failure T`.  A Rust panic (from `expect`
  or from an overflow check) is the distinct `Failure.panic`, since it aborts
  the process instead of returning to the caller.
* Functions taking `&mut BufReader` return the updated reader; functions that
  can fail after having mutated the reader return the pair
  `Except Failure α × BufReader` so that the reader state on the error path is
  visible.
-/

/-- Error kinds of `std::io::ErrorKind` used by the program. -/
inductive ErrorKind where
  | unexpectedEof
  | invalidData
  | other
deriving DecidableEq, Repr

/-- A failure: either an `io::Error` returned to the caller, or a process
abort (Rust panic, e.g. from `expect` or a debug overflow check). -/
inductive Failure where
  | err (k : ErrorKind)
  | panic
deriving DecidableEq, Repr

instance {ε α : Type} [DecidableEq ε] [DecidableEq α] : DecidableEq (Except ε α) := by
  intro a b
  cases a <;> cases b
  case error.error x y =>
    exact decidable_of_iff (x = y) ⟨fun h => by rw [h], fun h => by cases h; rfl⟩
  case ok.ok x y =>
    exact decidable_of_iff (x = y) ⟨fun h => by rw [h], fun h => by cases h; rfl⟩
  all_goals exact isFalse (fun h => by cases h)

/-- Little-endian 16-bit assembly of two bytes (`u16::from_le_bytes`). -/
def le16 (b0 b1 : Nat) : Nat := b0 + 256 * b1

/-- Big-endian 16-bit assembly of two bytes (`u16::from_be_bytes`). -/
def be16 (b0 b1 : Nat) : Nat := 256 * b0 + b1

/-- Little-endian 32-bit assembly of four bytes (`u32::from_le_bytes`). -/
def le32 (b0 b1 b2 b3 : Nat) : Nat := b0 + 256 * b1 + 65536 * b2 + 16777216 * b3

/-- Little-endian byte encoding of a `u32` value, used to lay out concrete
test buffers. -/
def u32le (v : Nat) : List Nat :=
  [v % 256, v / 256 % 256, v / 65536 % 256, v / 16777216 % 256]

/-- Checked machine-integer subtraction: Rust `a - b` on an unsigned integer
type, which panics on underflow when overflow checks are on (debug builds;
in release builds the value silently wraps instead — either way no
`io::Error` is returned to the caller). -/
def checked_sub (a b : Nat) : Except Failure Nat :=
  if b ≤ a then .ok (a - b) else .error .panic

/-- The in-memory byte reader of the program (`struct BufReader`), with a
byte buffer, a cursor, and a stack of saved cursor positions. -/
structure BufReader where
  cursorStack : List Nat
  cursor : Nat
  buffer : List Nat
deriving DecidableEq, Repr

/-- `BufReader::set_cursor`: fails with `UnexpectedEof` when the new cursor
is not strictly inside the buffer. -/
def BufReader.set_cursor (b : BufReader) (new_cursor : Nat) : Except Failure BufReader :=
  if new_cursor ≥ b.buffer.length then .error (.err .unexpectedEof)
  else .ok { b with cursor := new_cursor }

/-- `BufReader::save_cursor`: pushes the cursor on the stack. -/
def BufReader.save_cursor (b : BufReader) : BufReader :=
  { b with cursorStack := b.cursor :: b.cursorStack }

/-- `BufReader::restore_cursor`: pops the stack into the cursor; the source
calls `expect`, so an empty stack aborts the process. -/
def BufReader.restore_cursor (b : BufReader) : Except Failure BufReader :=
  match b.cursorStack with
  | [] => .error .panic
  | c :: rest => .ok { b with cursor := c, cursorStack := rest }

/-- `impl Read for BufReader`: reading `n` bytes either fails with
`UnexpectedEof` (when `cursor + n` exceeds the buffer length, leaving the
reader untouched) or returns the bytes and advances the cursor by `n`. -/
def BufReader.read (b : BufReader) (n : Nat) : Except Failure (List Nat × BufReader) :=
  if b.cursor + n > b.buffer.length then .error (.err .unexpectedEof)
  else .ok ((b.buffer.drop b.cursor).take n, { b with cursor := b.cursor + n })

/-- Model of an `f64` arising in this program from `u32 as f64 / u32 as f64`:
either an exact finite rational, positive infinity, or NaN. -/
inductive FVal where
  | finite (q : ℚ)
  | inf
  | nan
deriving DecidableEq, Repr

/-- `num as f64 / denom as f64` for unsigned `num`, `denom`: division by zero
yields NaN for `0/0` and positive infinity otherwise (idealizing finite
quotients as exact rationals). -/
def ratDiv (num denom : Nat) : FVal :=
  if denom = 0 then (if num = 0 then .nan else .inf)
  else .finite ((num : ℚ) / (denom : ℚ))

/-- f64 addition restricted to the values reachable in this program
(no negative infinities arise from `ratDiv` and positive constants). -/
def FVal.add : FVal → FVal → FVal
  | .nan, _ => .nan
  | _, .nan => .nan
  | .inf, _ => .inf
  | _, .inf => .inf
  | .finite a, .finite b => .finite (a + b)

/-- Multiplication by a positive constant (60.0, 3600.0, 100000.0 in the
source). -/
def FVal.mulC (c : ℚ) : FVal → FVal
  | .finite q => .finite (q * c)
  | .inf => .inf
  | .nan => .nan

/-- Division by a positive constant (3600.0 in the source). -/
def FVal.divC (c : ℚ) : FVal → FVal
  | .finite q => .finite (q / c)
  | .inf => .inf
  | .nan => .nan

/-- Rust `f as u64` for an `f64` value: NaN becomes 0, infinity saturates to
`u64::MAX`, and a finite value is truncated toward zero and saturated. -/
def f64_cast_u64 : FVal → Nat
  | .nan => 0
  | .inf => 18446744073709551615
  | .finite q => min ⌊q⌋₊ 18446744073709551615

/-- Decoding of the 24-byte block read by `floats_from_rational`: three
little-endian `u32` numerator/denominator pairs, each turned into a quotient. -/
def rational_to_floats (r : List Nat) : List FVal :=
  [ ratDiv (le32 (r.getD 0 0) (r.getD 1 0) (r.getD 2 0) (r.getD 3 0))
           (le32 (r.getD 4 0) (r.getD 5 0) (r.getD 6 0) (r.getD 7 0)),
    ratDiv (le32 (r.getD 8 0) (r.getD 9 0) (r.getD 10 0) (r.getD 11 0))
           (le32 (r.getD 12 0) (r.getD 13 0) (r.getD 14 0) (r.getD 15 0)),
    ratDiv (le32 (r.getD 16 0) (r.getD 17 0) (r.getD 18 0) (r.getD 19 0))
           (le32 (r.getD 20 0) (r.getD 21 0) (r.getD 22 0) (r.getD 23 0)) ]

/-- `floats_from_rational`: save the cursor, seek to `offset`, read 24 bytes,
restore the cursor, and decode three rationals.  The `?` early returns of the
source skip `restore_cursor` on the error paths, which the model reproduces
by returning the reader state reached at the point of failure. -/
def floats_from_rational (b : BufReader) (offset : Nat) :
    Except Failure (List FVal) × BufReader :=
  let b1 := b.save_cursor
  match b1.set_cursor offset with
  | .error e => (.error e, b1)
  | .ok b2 =>
    match b2.read 24 with
    | .error e => (.error e, b2)
    | .ok (rational, b3) =>
      match b3.restore_cursor with
      | .error e => (.error e, b3)
      | .ok b4 => (.ok (rational_to_floats rational), b4)

/-- `f64_from_ifd`: decode a rational triple as degrees, minutes, seconds;
combine as `d + (m*60 + s)/3600`, multiply by 100000, truncate via `as u64`,
and divide back by 100000. -/
def f64_from_ifd (b : BufReader) (offset : Nat) : Except Failure ℚ × BufReader :=
  match floats_from_rational b offset with
  | (.error e, b1) => (.error e, b1)
  | (.ok floats, b1) =>
    let f0 := floats.getD 0 .nan
    let f1 := floats.getD 1 .nan
    let f2 := floats.getD 2 .nan
    let value : Nat := f64_cast_u64 (((f0.add (((f1.mulC 60).add f2).divC 3600))).mulC 100000)
    (.ok ((value : ℚ) / 100000), b1)

/-- The decoded waypoint (`struct GpsInfo`): latitude and longitude in
decimal degrees and the composite time in seconds. -/
structure GpsInfo where
  lat : ℚ
  lon : ℚ
  time : Nat
deriving DecidableEq, Repr

/-- `GpsInfo::new`. -/
def GpsInfo.new : GpsInfo := { lat := 0, lon := 0, time := 0 }

/-- Rust `str::parse::<u64>` on a byte slice already checked to be UTF-8
(`get_num` in the source): accepts an optional leading plus sign followed by
one or more ASCII digits; anything else is a parse failure.  (A byte that is
not valid UTF-8 fails the preceding `str::from_utf8` conversion instead; both
failures map to `InvalidData`, so the model does not distinguish them.) -/
def parse_u64 (bytes : List Nat) : Option Nat :=
  let digits := match bytes with
    | 43 :: rest => rest
    | l => l
  if digits ≠ [] ∧ digits.all (fun b => 48 ≤ b ∧ b ≤ 57)
  then some (digits.foldl (fun a b => a * 10 + (b - 48)) 0)
  else none

/-- `get_num`: convert a byte slice to a number, failing with `InvalidData`
when it is not a decimal numeral. -/
def get_num (bytes : List Nat) : Except Failure Nat :=
  match parse_u64 bytes with
  | some n => .ok n
  | none => .error (.err .invalidData)

/-- `GpsInfo::process_timestamp`: decode an (hours, minutes, seconds)
rational triple and add `h*3600 + m*60 + s`, cast `as u64`, to the composite
time. -/
def GpsInfo.process_timestamp (wp : GpsInfo) (b : BufReader) (offset : Nat) :
    Except Failure GpsInfo × BufReader :=
  match floats_from_rational b offset with
  | (.error e, b1) => (.error e, b1)
  | (.ok floats, b1) =>
    let f0 := floats.getD 0 .nan
    let f1 := floats.getD 1 .nan
    let f2 := floats.getD 2 .nan
    let t : Nat := f64_cast_u64 (((f0.mulC 3600).add (f1.mulC 60)).add f2)
    (.ok { wp with time := wp.time + t }, b1)

/-- `GpsInfo::process_datestamp`: read the 10-byte `YYYY:MM:DD` date at
`offset` (save / seek / read / restore, with the same skipped restore on the
error paths as the source), parse year, month and day, and add the
simplified 31-day-month encoding to the composite time.  The `month - 1`
and `day - 1` subtractions are the unchecked `u64` subtractions of the
source, modelled by `checked_sub`. -/
def GpsInfo.process_datestamp (wp : GpsInfo) (b : BufReader) (offset : Nat) :
    Except Failure GpsInfo × BufReader :=
  let b1 := b.save_cursor
  match b1.set_cursor offset with
  | .error e => (.error e, b1)
  | .ok b2 =>
    match b2.read 10 with
    | .error e => (.error e, b2)
    | .ok (date, b3) =>
      match b3.restore_cursor with
      | .error e => (.error e, b3)
      | .ok b4 =>
        match get_num (date.take 4) with
        | .error e => (.error e, b4)
        | .ok year =>
          match get_num ((date.drop 5).take 2) with
          | .error e => (.error e, b4)
          | .ok month =>
            match get_num ((date.drop 8).take 2) with
            | .error e => (.error e, b4)
            | .ok day =>
              match checked_sub month 1 with
              | .error e => (.error e, b4)
              | .ok m1 =>
                match checked_sub day 1 with
                | .error e => (.error e, b4)
                | .ok d1 =>
                  (.ok { wp with time := wp.time
                          + year * 31 * 12 * 24 * 60 * 60
                          + m1 * 31 * 24 * 60 * 60
                          + d1 * 24 * 60 * 60 }, b4)

/-- `distance in meters` comment of `GpsInfo::distance_from`: the great
circle distance via the haversine formula, before the final `as u32` cast.
`atan2` is the two-argument arctangent of libm, reproduced below for the
arguments reachable here (both nonnegative).  Modelled over the reals. -/
noncomputable def atan2 (y x : ℝ) : ℝ :=
  if 0 < x then Real.arctan (y / x)
  else if x < 0 then
    (if 0 ≤ y then Real.arctan (y / x) + Real.pi else Real.arctan (y / x) - Real.pi)
  else if 0 < y then Real.pi / 2 else if y < 0 then -(Real.pi / 2) else 0

/-- The `f64` value computed inside `GpsInfo::distance_from` before the
`as u32` truncation: latitudes and longitudes converted to radians, the
haversine `a`, `c = 2 * atan2(sqrt a, sqrt (1 - a))`, and `6371000 * c`. -/
noncomputable def distance_from_f64 (p other : GpsInfo) : ℝ :=
  let lat1 := ((p.lat : ℝ) * Real.pi) / 180
  let lon1 := ((p.lon : ℝ) * Real.pi) / 180
  let lat2 := ((other.lat : ℝ) * Real.pi) / 180
  let lon2 := ((other.lon : ℝ) * Real.pi) / 180
  let dlat := (lat1 - lat2) / 2
  let dlon := (lon1 - lon2) / 2
  let a := Real.sin dlat * Real.sin dlat
      + Real.cos lat1 * Real.cos lat2 * Real.sin dlon * Real.sin dlon
  let c := 2 * atan2 (Real.sqrt a) (Real.sqrt (1 - a))
  6371000 * c

/-- `GpsInfo::distance_from`: the haversine distance truncated by the final
`as u32` cast (the value reachable here is nonnegative and far below
`u32::MAX`, so the cast is a floor). -/
noncomputable def GpsInfo.distance_from (p other : GpsInfo) : Nat :=
  ⌊distance_from_f64 p other⌋₊

/-- Marker and tag constants of the source. -/
def SOI : Nat := 0xffd8

/-- Start Of Scan marker. -/
def SOS : Nat := 0xffda

/-- APP1 marker. -/
def APP1 : Nat := 0xffe1

/-- GPS sub-IFD tag. -/
def GPS : Nat := 0x8825

/-- Latitude quadrant tag. -/
def LAT_Q : Nat := 1

/-- Latitude value tag. -/
def LAT_V : Nat := 2

/-- Longitude quadrant tag. -/
def LONG_Q : Nat := 3

/-- Longitude value tag. -/
def LONG_V : Nat := 4

/-- GPS timestamp tag. -/
def TIMESTAMP : Nat := 7

/-- GPS datestamp tag. -/
def DATESTAMP : Nat := 0x1d

/-- Waypoints within this distance of the previous one are dropped. -/
def DISTANCE_DIFF : Nat := 5

/-- Number of essential GPS directory entries. -/
def NUM_ESSENTIAL_ENTRIES : Nat := 6

/-- `char::from_u32`: `some` exactly on Unicode scalar values (everything
below `0x110000` except the surrogate range `0xD800..=0xDFFF`). -/
def char_from_u32 (v : Nat) : Option Nat :=
  if v < 0xD800 ∨ (0xE000 ≤ v ∧ v ≤ 0x10FFFF) then some v else none

/-- A 12-byte IFD entry (`struct IfdEntry`). -/
structure IfdEntry where
  tag : Nat
  typ_e : Nat
  count : Nat
  offset : Nat
deriving DecidableEq, Repr

/-- The TIFF sub-header (`struct ExifBody`). -/
structure ExifBody where
  tiff : Nat
  size : Nat
  offset : Nat
deriving DecidableEq, Repr

/-- `ExifBody::is_valid`: little-endian signature and first-IFD offset 8. -/
def ExifBody.is_valid (e : ExifBody) : Bool :=
  e.tiff == 0x4949 && e.offset == 8

/-- `read_u16`: two bytes, little-endian. -/
def read_u16 (b : BufReader) : Except Failure (Nat × BufReader) :=
  match b.read 2 with
  | .error e => .error e
  | .ok (bytes, b1) => .ok (le16 (bytes.getD 0 0) (bytes.getD 1 0), b1)

/-- `read_struct::<IfdEntry>`: 12 bytes interpreted with the in-memory
(little-endian) layout of the packed struct. -/
def read_ifd_entry (b : BufReader) : Except Failure (IfdEntry × BufReader) :=
  match b.read 12 with
  | .error e => .error e
  | .ok (bytes, b1) =>
    .ok (⟨le16 (bytes.getD 0 0) (bytes.getD 1 0),
          le16 (bytes.getD 2 0) (bytes.getD 3 0),
          le32 (bytes.getD 4 0) (bytes.getD 5 0) (bytes.getD 6 0) (bytes.getD 7 0),
          le32 (bytes.getD 8 0) (bytes.getD 9 0) (bytes.getD 10 0) (bytes.getD 11 0)⟩, b1)

/-- `read_struct::<ExifBody>`: 8 bytes, little-endian fields. -/
def read_exif_body (b : BufReader) : Except Failure (ExifBody × BufReader) :=
  match b.read 8 with
  | .error e => .error e
  | .ok (bytes, b1) =>
    .ok (⟨le16 (bytes.getD 0 0) (bytes.getD 1 0),
          le16 (bytes.getD 2 0) (bytes.getD 3 0),
          le32 (bytes.getD 4 0) (bytes.getD 5 0) (bytes.getD 6 0) (bytes.getD 7 0)⟩, b1)

/-- The mutable locals of the `process_gps_section` loop. -/
structure GpsLoopState where
  waypoint : GpsInfo
  lat_sign : ℚ
  lon_sign : ℚ
  essentials : Nat
deriving DecidableEq, Repr

/-- The initial loop state of `process_gps_section`. -/
def gpsInitState : GpsLoopState :=
  { waypoint := GpsInfo.new, lat_sign := 1, lon_sign := 1, essentials := 0 }

/-- The body of the `match entry.tag` dispatch inside `process_gps_section`,
including the `essentials += 1` before the match and the `essentials -= 1`
of the default arm.  The quadrant arms call `char::from_u32(..).expect(..)`,
so a value that is not a Unicode scalar aborts the process. -/
def gps_dispatch (b : BufReader) (st : GpsLoopState) (entry : IfdEntry) :
    Except Failure GpsLoopState × BufReader :=
  let ess := st.essentials + 1
  if entry.tag = LAT_Q then
    match char_from_u32 entry.offset with
    | none => (.error .panic, b)
    | some c =>
      (.ok { st with lat_sign := if c = 83 then -1 else 1, essentials := ess }, b)
  else if entry.tag = LONG_Q then
    match char_from_u32 entry.offset with
    | none => (.error .panic, b)
    | some c =>
      (.ok { st with lon_sign := if c = 87 then -1 else 1, essentials := ess }, b)
  else if entry.tag = LAT_V then
    match f64_from_ifd b entry.offset with
    | (.error e, b1) => (.error e, b1)
    | (.ok v, b1) =>
      (.ok { st with waypoint := { st.waypoint with lat := v }, essentials := ess }, b1)
  else if entry.tag = LONG_V then
    match f64_from_ifd b entry.offset with
    | (.error e, b1) => (.error e, b1)
    | (.ok v, b1) =>
      (.ok { st with waypoint := { st.waypoint with lon := v }, essentials := ess }, b1)
  else if entry.tag = TIMESTAMP then
    match st.waypoint.process_timestamp b entry.offset with
    | (.error e, b1) => (.error e, b1)
    | (.ok wp, b1) => (.ok { st with waypoint := wp, essentials := ess }, b1)
  else if entry.tag = DATESTAMP then
    match st.waypoint.process_datestamp b entry.offset with
    | (.error e, b1) => (.error e, b1)
    | (.ok wp, b1) => (.ok { st with waypoint := wp, essentials := ess }, b1)
  else
    (.ok { st with essentials := ess - 1 }, b)

/-- The `while i < num_entries` loop of `process_gps_section`: read an IFD
entry and dispatch on its tag, `n` times. -/
def process_gps_entries (b : BufReader) (st : GpsLoopState) :
    Nat → Except Failure GpsLoopState × BufReader
  | 0 => (.ok st, b)
  | n + 1 =>
    match read_ifd_entry b with
    | .error e => (.error e, b)
    | .ok (entry, b1) =>
      match gps_dispatch b1 st entry with
      | (.error e, b2) => (.error e, b2)
      | (.ok st1, b2) => process_gps_entries b2 st1 n

/-- `process_gps_section`: read the entry count, run the dispatch loop, and
return the waypoint (with the quadrant signs applied) exactly when six
essential entries were seen; otherwise return the non-fatal `Other` error. -/
def process_gps_section (b : BufReader) : Except Failure GpsInfo × BufReader :=
  match read_u16 b with
  | .error e => (.error e, b)
  | .ok (num_entries, b1) =>
    match process_gps_entries b1 gpsInitState num_entries with
    | (.error e, b2) => (.error e, b2)
    | (.ok st, b2) =>
      if st.essentials = NUM_ESSENTIAL_ENTRIES then
        (.ok { st.waypoint with
                 lat := st.waypoint.lat * st.lat_sign,
                 lon := st.waypoint.lon * st.lon_sign }, b2)
      else
        (.error (.err .other), b2)

/-- The calendar fields computed by `print_time`: successive division of the
composite time by 60, 60, 24, 31 and 12 (the inverse of the simplified
31-day-month encoding). -/
def print_time_fields (time : Nat) : Nat × Nat × Nat × Nat × Nat × Nat :=
  let sec := time % 60
  let run := time / 60
  let min := run % 60
  let run := run / 60
  let hour := run % 24
  let run := run / 24
  let day := run % 31 + 1
  let run := run / 31
  let month := run % 12 + 1
  let year := run / 12
  (year, month, day, hour, min, sec)

/-- The composite-time contribution of `process_datestamp` for already parsed
year, month and day fields (lines 129-131 of the source):
`year*31*12*24*60*60 + (month-1)*31*24*60*60 + (day-1)*24*60*60`. -/
def encode_datestamp (year month day : Nat) : Nat :=
  year * 31 * 12 * 24 * 60 * 60 + (month - 1) * 31 * 24 * 60 * 60 + (day - 1) * 24 * 60 * 60

/-- The composite-time contribution of `process_timestamp` for integer hour,
minute and second values (line 110 of the source): `h*3600 + m*60 + s`. -/
def encode_timestamp (hour min sec : Nat) : Nat :=
  hour * 3600 + min * 60 + sec

/-- The full composite-time encoding of a date/time tuple under the
simplified 31-day-month calendar. -/
def encode_composite (year month day hour min sec : Nat) : Nat :=
  encode_datestamp year month day + encode_timestamp hour min sec

/-- The `for i in 1..wp.len()` filter loop of `print_xml`: each waypoint is
compared against its immediate predecessor in the sorted vector `wp`
(whether or not that predecessor was kept), and pushed exactly when the
truncated distance exceeds `DISTANCE_DIFF`. -/
noncomputable def filter_tail (prev : GpsInfo) : List GpsInfo → List GpsInfo
  | [] => []
  | w :: ws =>
    if w.distance_from prev > DISTANCE_DIFF then w :: filter_tail w ws
    else filter_tail w ws

/-- The waypoint-filtering step of `print_xml` applied to the sorted vector:
`filtered.push(&wp[0])` indexes out of bounds on an empty vector (a panic,
modelled as `none`); otherwise the first waypoint is kept and the loop runs
over the rest. -/
noncomputable def print_xml_filter : List GpsInfo → Option (List GpsInfo)
  | [] => none
  | w0 :: rest => some (w0 :: filter_tail w0 rest)

/-- `print_xml` up to the point that decides which waypoints appear in the
output: clone, sort by composite time ascending (`sort_by` is a stable merge
sort), then filter. -/
noncomputable def print_xml_waypoints (waypoints : List GpsInfo) : Option (List GpsInfo) :=
  print_xml_filter (waypoints.mergeSort (fun a b => a.time ≤ b.time))

/-- Outcome of the tail of `main` once all files have been parsed. -/
inductive MainTailOutcome where
  | noGeotags
  | wrote (result : Option (List GpsInfo))

/-- The tail of `main`: when no waypoints were collected it prints
`No geotags found in input file(s)` and returns before calling `print_xml`;
otherwise it calls `print_xml` on the collected waypoints. -/
noncomputable def main_tail (waypoints : List GpsInfo) : MainTailOutcome :=
  if waypoints.length = 0 then .noGeotags
  else .wrote (print_xml_waypoints waypoints)

-- Modelled from the claim text of C1 (the spec wording in section 4.5):
-- drop a waypoint exactly when the haversine distance between it and the
-- immediately preceding KEPT waypoint is at most 5 meters, otherwise keep it
-- and make it the new reference point.
open Classical in
noncomputable def claim_filter_tail (prev : GpsInfo) : List GpsInfo → List GpsInfo
  | [] => []
  | w :: ws =>
    if distance_from_f64 w prev ≤ 5 then claim_filter_tail prev ws
    else w :: claim_filter_tail w ws

/-- Modelled from the claim text of C1: the first waypoint of the sorted
list is always kept; later ones are compared with the last kept waypoint. -/
noncomputable def claim_filter : List GpsInfo → List GpsInfo
  | [] => []
  | w0 :: rest => w0 :: claim_filter_tail w0 rest

/-- The open input file: its full byte content and the read position. -/
structure FileState where
  bytes : List Nat
  pos : Nat
deriving DecidableEq, Repr

/-- `read_tag` on a `File` (big-endian `u16`): `File::read` into a 2-byte
zero-initialized array returns the bytes that are available, so missing
bytes past the end of the file stay zero and no error is reported at EOF. -/
def file_read_tag (f : FileState) : Nat × FileState :=
  (be16 (f.bytes.getD f.pos 0) (f.bytes.getD (f.pos + 1) 0),
   { f with pos := f.pos + min 2 (f.bytes.length - f.pos) })

/-- `File::read_exact` (used by `BufReader::init`): reads exactly `n` bytes
or fails with `UnexpectedEof`. -/
def file_read_exact (f : FileState) (n : Nat) : Except Failure (List Nat × FileState) :=
  if f.bytes.length < f.pos + n then .error (.err .unexpectedEof)
  else .ok ((f.bytes.drop f.pos).take n, { f with pos := f.pos + n })

/-- The `while num_entries != 0` loop of `handle_app1`: scan top-level IFD
entries for the GPS tag; on a match seek to its offset and decode the GPS
section; when the count is exhausted report no GPS section (`Other`). -/
def find_gps (b : BufReader) : Nat → Except Failure GpsInfo
  | 0 => .error (.err .other)
  | n + 1 =>
    match read_ifd_entry b with
    | .error e => .error e
    | .ok (entry, b1) =>
      if entry.tag = GPS then
        match b1.set_cursor entry.offset with
        | .error e => .error e
        | .ok b2 => (process_gps_section b2).1
      else find_gps b1 n

/-- The fixed Exif-identifier advance of `handle_app1`. -/
def ADVANCE : Nat := 6

/-- `handle_app1`: seek 6 bytes past the Exif identifier, load `len - 6`
bytes into a fresh `BufReader` (the `len - ADVANCE` subtraction is the
unchecked `u16` subtraction of the source), validate the TIFF header, and
walk the top-level IFD. -/
def handle_app1 (f : FileState) (len : Nat) : Except Failure GpsInfo :=
  let f1 : FileState := { f with pos := f.pos + ADVANCE }
  match checked_sub len ADVANCE with
  | .error e => .error e
  | .ok sz =>
    match file_read_exact f1 sz with
    | .error e => .error e
    | .ok (bytes, _) =>
      let buffer : BufReader := ⟨[], 0, bytes⟩
      match read_exif_body buffer with
      | .error e => .error e
      | .ok (eb, b1) =>
        if eb.is_valid then
          match read_u16 b1 with
          | .error e => .error e
          | .ok (num_entries, b2) => find_gps b2 num_entries
        else .error (.err .other)

/-- The marker-scanning loop of `parse_file`.  The fuel argument only serves
Lean totality: one iteration consumes at least one byte whenever any byte is
left, and at EOF both reads return zero so that `checked_sub 0 2` stops the
loop with the overflow panic the Rust code would hit, so
`bytes.length + 1` fuel is never exhausted.  Note `let len = read_tag(..)? - 2`
is the unchecked `u16` subtraction of the source, modelled by `checked_sub`. -/
def parse_loop : Nat → FileState → Except Failure GpsInfo
  | 0, _ => .error .panic
  | fuel + 1, f =>
    let (t, f1) := file_read_tag f
    if t = SOS then .error (.err .other)
    else
      let (decl, f2) := file_read_tag f1
      match checked_sub decl 2 with
      | .error e => .error e
      | .ok len =>
        if t = APP1 then handle_app1 f2 len
        else parse_loop fuel { f2 with pos := f2.pos + len }

/-- `parse_file` on the byte content of one input file: check the SOI
marker, then scan segments; a file that is not a photo, or has no APP1 or
GPS data, yields the non-fatal `Other` error. -/
def parse_file (content : List Nat) : Except Failure GpsInfo :=
  let f : FileState := ⟨content, 0⟩
  let (t, f1) := file_read_tag f
  if t = SOI then parse_loop (content.length + 1) f1
  else .error (.err .other)

/-- The 12-byte IFD entry laid out at position `pos` of a byte buffer
(little-endian fields, exactly as `read_ifd_entry` assembles them). -/
def entryAt (l : List Nat) (pos : Nat) : IfdEntry :=
  ⟨le16 (l.getD pos 0) (l.getD (pos + 1) 0),
   le16 (l.getD (pos + 2) 0) (l.getD (pos + 3) 0),
   le32 (l.getD (pos + 4) 0) (l.getD (pos + 5) 0) (l.getD (pos + 6) 0) (l.getD (pos + 7) 0),
   le32 (l.getD (pos + 8) 0) (l.getD (pos + 9) 0) (l.getD (pos + 10) 0) (l.getD (pos + 11) 0)⟩

/-- Whether a tag is one of the six recognized GPS tags. -/
def recognizedTag (t : Nat) : Bool :=
  t == LAT_Q || t == LONG_Q || t == LAT_V || t == LONG_V || t == TIMESTAMP || t == DATESTAMP

/-- Number of recognized tags among the `n` consecutive 12-byte entries laid
out at position `pos` of the buffer. -/
def matchedCount (l : List Nat) (pos : Nat) : Nat → Nat
  | 0 => 0
  | n + 1 =>
    (if recognizedTag (entryAt l pos).tag then 1 else 0) + matchedCount l (pos + 12) n

/-- Whether the dispatch of one GPS IFD entry succeeds against the given
buffer: quadrant values must be Unicode scalars, out-of-line reads must be
in bounds, and the datestamp fields must parse as numbers with month and
day at least 1 (the source subtracts 1 from both). -/
def entry_decode_ok (l : List Nat) (e : IfdEntry) : Bool :=
  if e.tag == LAT_Q || e.tag == LONG_Q then (char_from_u32 e.offset).isSome
  else if e.tag == LAT_V || e.tag == LONG_V || e.tag == TIMESTAMP then
    decide (e.offset < l.length) && decide (e.offset + 24 ≤ l.length)
  else if e.tag == DATESTAMP then
    decide (e.offset < l.length) && decide (e.offset + 10 ≤ l.length) &&
    (let date := (l.drop e.offset).take 10
     (parse_u64 (date.take 4)).isSome &&
     ((parse_u64 ((date.drop 5).take 2)).getD 0 ≥ 1) &&
     ((parse_u64 ((date.drop 8).take 2)).getD 0 ≥ 1) &&
     (parse_u64 ((date.drop 5).take 2)).isSome &&
     (parse_u64 ((date.drop 8).take 2)).isSome)
  else true

/-- The buffer invariant stated by the spec (section 3): the cursor never
exceeds the buffer length, and every saved position on the stack is in
bounds as well (saved positions are former cursor values). -/
def BufInv (b : BufReader) : Prop :=
  b.cursor ≤ b.buffer.length ∧ ∀ x ∈ b.cursorStack, x ≤ b.buffer.length

instance (b : BufReader) : Decidable (BufInv b) := by
  unfold BufInv; infer_instance

lemma set_cursor_eq_ok (b : BufReader) (off : Nat) (h : off < b.buffer.length) :
    b.set_cursor off = .ok { b with cursor := off } := by
  unfold BufReader.set_cursor
  rw [if_neg (by omega)]

lemma read_eq_ok (b : BufReader) (n : Nat) (h : b.cursor + n ≤ b.buffer.length) :
    b.read n = .ok ((b.buffer.drop b.cursor).take n, { b with cursor := b.cursor + n }) := by
  unfold BufReader.read
  rw [if_neg (by omega)]

lemma restore_cursor_cons (b : BufReader) (c : Nat) (rest : List Nat)
    (h : b.cursorStack = c :: rest) :
    b.restore_cursor = .ok { b with cursor := c, cursorStack := rest } := by
  unfold BufReader.restore_cursor
  rw [h]

/-- On in-bounds arguments, `floats_from_rational` succeeds, decodes the
24-byte slice at `offset`, and returns the reader exactly as it received it
(the save / seek / read / restore round trip is balanced). -/
lemma floats_from_rational_ok (b : BufReader) (off : Nat)
    (h1 : off < b.buffer.length) (h2 : off + 24 ≤ b.buffer.length) :
    floats_from_rational b off =
      (.ok (rational_to_floats ((b.buffer.drop off).take 24)), b) := by
  unfold floats_from_rational
  dsimp only
  rw [set_cursor_eq_ok _ _ (by simpa [BufReader.save_cursor] using h1)]
  simp only [BufReader.save_cursor]
  rw [read_eq_ok _ _ (by simpa using h2)]
  dsimp only
  rw [restore_cursor_cons _ b.cursor b.cursorStack (by rfl)]

/-- `f64_from_ifd` on in-bounds arguments: value formula and frame. -/
lemma f64_from_ifd_ok (b : BufReader) (off : Nat)
    (h1 : off < b.buffer.length) (h2 : off + 24 ≤ b.buffer.length) :
    f64_from_ifd b off =
      (let floats := rational_to_floats ((b.buffer.drop off).take 24)
       (.ok ((f64_cast_u64 ((((floats.getD 0 .nan).add
            ((((floats.getD 1 .nan).mulC 60).add (floats.getD 2 .nan)).divC 3600))).mulC 100000) : ℚ)
          / 100000), b)) := by
  unfold f64_from_ifd
  rw [floats_from_rational_ok b off h1 h2]

/-- Claim C2: for every date/time tuple with month in 1..12, day in 1..31,
hour below 24, minute below 60 and second below 60, encoding with the
simplified 31-day-month calendar (the arithmetic of `process_datestamp`
plus the intraday seconds of `process_timestamp`) and then decoding the
composite time with the successive divisions of `print_time` returns the
same tuple. -/
theorem C2_composite_time_roundtrip (year month day hour min sec : Nat)
    (hm1 : 1 ≤ month) (hm2 : month ≤ 12) (hd1 : 1 ≤ day) (hd2 : day ≤ 31)
    (hh : hour < 24) (hmi : min < 60) (hs : sec < 60) :
    print_time_fields (encode_composite year month day hour min sec) =
      (year, month, day, hour, min, sec) := by
  simp only [print_time_fields, encode_composite, encode_datestamp, encode_timestamp,
    Prod.mk.injEq]
  refine ⟨?_, ?_, ?_, ?_, ?_, ?_⟩ <;> omega

/-- Witness for C2 at the tuple (2020, 1, 1, 0, 0, 0) named by the claim. -/
theorem C2_composite_time_roundtrip_witness :
    (1 ≤ 1 ∧ (1 : Nat) ≤ 12 ∧ 1 ≤ 1 ∧ (1 : Nat) ≤ 31 ∧ 0 < 24 ∧ 0 < 60) ∧
    print_time_fields (encode_composite 2020 1 1 0 0 0) = (2020, 1, 1, 0, 0, 0) :=
  ⟨by decide,
   C2_composite_time_roundtrip 2020 1 1 0 0 0 (by decide) (by decide) (by decide)
     (by decide) (by decide) (by decide) (by decide)⟩

/-- Claim C8: starting from a reader satisfying the invariant (cursor and
all saved positions within the buffer length), every operation preserves it:
`read n` fails with `UnexpectedEof` exactly when fewer than `n` bytes remain
and otherwise advances the cursor by exactly `n`; `set_cursor off` fails
with `UnexpectedEof` exactly when `off` is at least the buffer length and
otherwise sets the cursor; `save_cursor` pushes the current (in-bounds)
cursor; `restore_cursor` pops the stack and moves the cursor to the
previously saved, hence in-bounds, value. -/
theorem C8_bufreader_invariant (b : BufReader) (n off : Nat) (hb : BufInv b) :
    ((b.read n = .error (.err .unexpectedEof)) ↔ b.buffer.length - b.cursor < n) ∧
    (∀ bytes b1, b.read n = .ok (bytes, b1) →
       b1.cursor = b.cursor + n ∧ b1.buffer = b.buffer ∧
       b1.cursorStack = b.cursorStack ∧ BufInv b1) ∧
    ((b.set_cursor off = .error (.err .unexpectedEof)) ↔ off ≥ b.buffer.length) ∧
    (∀ b1, b.set_cursor off = .ok b1 → b1.cursor = off ∧ b1.buffer = b.buffer ∧
       b1.cursorStack = b.cursorStack ∧ BufInv b1) ∧
    (b.save_cursor.cursor = b.cursor ∧
       b.save_cursor.cursorStack = b.cursor :: b.cursorStack ∧ BufInv b.save_cursor) ∧
    (∀ c rest, b.cursorStack = c :: rest →
       b.restore_cursor = .ok { b with cursor := c, cursorStack := rest } ∧
       BufInv { b with cursor := c, cursorStack := rest }) := by
  obtain ⟨hc, hs⟩ := hb
  refine ⟨?_, ?_, ?_, ?_, ?_, ?_⟩
  · unfold BufReader.read
    split
    · simp only [eq_self_iff_true, true_iff]
      omega
    · constructor
      · intro h
        exact absurd h (by simp)
      · intro h
        exfalso
        omega
  · intro bytes b1 h
    unfold BufReader.read at h
    split at h
    · cases h
    · simp only [Except.ok.injEq, Prod.mk.injEq] at h
      obtain ⟨-, rfl⟩ := h
      refine ⟨rfl, rfl, rfl, ?_, hs⟩
      show b.cursor + n ≤ b.buffer.length
      omega
  · unfold BufReader.set_cursor
    split
    · simp only [eq_self_iff_true, true_iff]
      omega
    · constructor
      · intro h
        exact absurd h (by simp)
      · intro h
        exfalso
        omega
  · intro b1 h
    unfold BufReader.set_cursor at h
    split at h
    · cases h
    · simp only [Except.ok.injEq] at h
      subst h
      refine ⟨rfl, rfl, rfl, ?_, hs⟩
      show off ≤ b.buffer.length
      omega
  · refine ⟨rfl, rfl, hc, ?_⟩
    intro x hx
    simp only [BufReader.save_cursor, List.mem_cons] at hx
    rcases hx with rfl | hx
    · exact hc
    · exact hs x hx
  · intro c rest h
    refine ⟨restore_cursor_cons b c rest h, ?_, ?_⟩
    · exact hs c (by rw [h]; exact List.mem_cons_self c rest)
    · intro x hx
      exact hs x (by rw [h]; exact List.mem_cons_of_mem c hx)

/-- Witness for C8 at a concrete reader satisfying the invariant. -/
theorem C8_bufreader_invariant_witness :
    BufInv ⟨[1], 1, [7, 7, 7]⟩ ∧
    ((BufReader.read ⟨[1], 1, [7, 7, 7]⟩ 2 = .error (.err .unexpectedEof)) ↔
       ([7, 7, 7] : List Nat).length - 1 < 2) ∧
    (∀ bytes b1, BufReader.read ⟨[1], 1, [7, 7, 7]⟩ 2 = .ok (bytes, b1) →
       b1.cursor = 1 + 2 ∧ b1.buffer = [7, 7, 7] ∧ b1.cursorStack = [1] ∧ BufInv b1) ∧
    ((BufReader.set_cursor ⟨[1], 1, [7, 7, 7]⟩ 0 = .error (.err .unexpectedEof)) ↔
       0 ≥ ([7, 7, 7] : List Nat).length) ∧
    (∀ b1, BufReader.set_cursor ⟨[1], 1, [7, 7, 7]⟩ 0 = .ok b1 →
       b1.cursor = 0 ∧ b1.buffer = [7, 7, 7] ∧ b1.cursorStack = [1] ∧ BufInv b1) ∧
    ((BufReader.save_cursor ⟨[1], 1, [7, 7, 7]⟩).cursor = 1 ∧
       (BufReader.save_cursor ⟨[1], 1, [7, 7, 7]⟩).cursorStack = 1 :: [1] ∧
       BufInv (BufReader.save_cursor ⟨[1], 1, [7, 7, 7]⟩)) ∧
    (∀ c rest, ([1] : List Nat) = c :: rest →
       BufReader.restore_cursor ⟨[1], 1, [7, 7, 7]⟩ = .ok ⟨rest, c, [7, 7, 7]⟩ ∧
       BufInv ⟨rest, c, [7, 7, 7]⟩) :=
  ⟨by decide, C8_bufreader_invariant ⟨[1], 1, [7, 7, 7]⟩ 2 0 (by decide)⟩

lemma set_cursor_eq_err (b : BufReader) (off : Nat) (h : off ≥ b.buffer.length) :
    b.set_cursor off = .error (.err .unexpectedEof) := by
  unfold BufReader.set_cursor
  rw [if_pos h]

lemma read_eq_err (b : BufReader) (n : Nat) (h : b.cursor + n > b.buffer.length) :
    b.read n = .error (.err .unexpectedEof) := by
  unfold BufReader.read
  rw [if_pos h]

/-- Seek failure inside `floats_from_rational`: the saved position stays on
the stack because the `?` early return skips `restore_cursor`. -/
lemma floats_from_rational_seek_err (b : BufReader) (off : Nat)
    (h : off ≥ b.buffer.length) :
    floats_from_rational b off = (.error (.err .unexpectedEof), b.save_cursor) := by
  unfold floats_from_rational
  dsimp only
  rw [set_cursor_eq_err _ _ (by simpa [BufReader.save_cursor] using h)]

/-- Read failure inside `floats_from_rational`: the cursor stays at the seek
target and the saved position stays on the stack. -/
lemma floats_from_rational_read_err (b : BufReader) (off : Nat)
    (h1 : off < b.buffer.length) (h2 : off + 24 > b.buffer.length) :
    floats_from_rational b off =
      (.error (.err .unexpectedEof), ⟨b.cursor :: b.cursorStack, off, b.buffer⟩) := by
  unfold floats_from_rational
  dsimp only
  rw [set_cursor_eq_ok _ _ (by simpa [BufReader.save_cursor] using h1)]
  simp only [BufReader.save_cursor]
  rw [read_eq_err _ _ (by simpa using h2)]

/-- Seek failure inside `process_datestamp`. -/
lemma process_datestamp_seek_err (wp : GpsInfo) (b : BufReader) (off : Nat)
    (h : off ≥ b.buffer.length) :
    wp.process_datestamp b off = (.error (.err .unexpectedEof), b.save_cursor) := by
  unfold GpsInfo.process_datestamp
  dsimp only
  rw [set_cursor_eq_err _ _ (by simpa [BufReader.save_cursor] using h)]

/-- Read failure inside `process_datestamp`. -/
lemma process_datestamp_read_err (wp : GpsInfo) (b : BufReader) (off : Nat)
    (h1 : off < b.buffer.length) (h2 : off + 10 > b.buffer.length) :
    wp.process_datestamp b off =
      (.error (.err .unexpectedEof), ⟨b.cursor :: b.cursorStack, off, b.buffer⟩) := by
  unfold GpsInfo.process_datestamp
  dsimp only
  rw [set_cursor_eq_ok _ _ (by simpa [BufReader.save_cursor] using h1)]
  simp only [BufReader.save_cursor]
  rw [read_eq_err _ _ (by simpa using h2)]

/-- Once the 10-byte date read is in bounds, `process_datestamp` has already
restored the reader before any parse step, so the returned reader is the
input one on every remaining path. -/
lemma process_datestamp_frame (wp : GpsInfo) (b : BufReader) (off : Nat)
    (h1 : off < b.buffer.length) (h2 : off + 10 ≤ b.buffer.length) :
    (wp.process_datestamp b off).2 = b := by
  unfold GpsInfo.process_datestamp
  dsimp only
  rw [set_cursor_eq_ok _ _ (by simpa [BufReader.save_cursor] using h1)]
  simp only [BufReader.save_cursor]
  rw [read_eq_ok _ _ (by simpa using h2)]
  dsimp only
  rw [restore_cursor_cons _ b.cursor b.cursorStack (by rfl)]
  dsimp only
  repeat' split
  all_goals rfl

/-- Claim C7 (amended): `floats_from_rational` and `process_datestamp`
restore the reader exactly on success, but on a seek or read failure the
`?` early return skips `restore_cursor`: the saved position remains pushed
on the stack (and after a successful seek the cursor remains at the target
offset).  The parse failures of `process_datestamp` happen after the
restore and leave the reader as received. -/
theorem C7_offset_read_frame (b : BufReader) (off : Nat) (wp : GpsInfo) :
    (∀ r, (floats_from_rational b off).1 = .ok r → (floats_from_rational b off).2 = b) ∧
    (off ≥ b.buffer.length →
       floats_from_rational b off = (.error (.err .unexpectedEof), b.save_cursor)) ∧
    (off < b.buffer.length → off + 24 > b.buffer.length →
       floats_from_rational b off =
         (.error (.err .unexpectedEof), ⟨b.cursor :: b.cursorStack, off, b.buffer⟩)) ∧
    (∀ r, (wp.process_datestamp b off).1 = .ok r → (wp.process_datestamp b off).2 = b) ∧
    (off ≥ b.buffer.length →
       wp.process_datestamp b off = (.error (.err .unexpectedEof), b.save_cursor)) ∧
    (off < b.buffer.length → off + 10 > b.buffer.length →
       wp.process_datestamp b off =
         (.error (.err .unexpectedEof), ⟨b.cursor :: b.cursorStack, off, b.buffer⟩)) ∧
    (off < b.buffer.length → off + 10 ≤ b.buffer.length →
       (wp.process_datestamp b off).2 = b) := by
  refine ⟨?_, floats_from_rational_seek_err b off, floats_from_rational_read_err b off, ?_,
    process_datestamp_seek_err wp b off, process_datestamp_read_err wp b off,
    fun h1 h2 => process_datestamp_frame wp b off h1 h2⟩
  · intro r h
    by_cases h1 : off < b.buffer.length
    · by_cases h2 : off + 24 ≤ b.buffer.length
      · rw [floats_from_rational_ok b off h1 h2]
      · simp [floats_from_rational_read_err b off h1 (by omega)] at h
    · simp [floats_from_rational_seek_err b off (by omega)] at h
  · intro r h
    by_cases h1 : off < b.buffer.length
    · by_cases h2 : off + 10 ≤ b.buffer.length
      · exact process_datestamp_frame wp b off h1 h2
      · simp [process_datestamp_read_err wp b off h1 (by omega)] at h
    · simp [process_datestamp_seek_err wp b off (by omega)] at h

/-- Counterexample for C7 as stated: on a failing seek the saved-position
stack is NOT left as it was before the call — the entry pushed by
`save_cursor` is still there. -/
theorem C7_counterexample :
    (floats_from_rational ⟨[], 0, List.replicate 30 0⟩ 100).2.cursorStack ≠
      (⟨[], 0, List.replicate 30 0⟩ : BufReader).cursorStack := by decide

/-- Witness for C7 at a concrete failing seek. -/
theorem C7_offset_read_frame_witness :
    (100 ≥ (BufReader.buffer ⟨[5], 7, List.replicate 30 0⟩).length) ∧
    floats_from_rational ⟨[5], 7, List.replicate 30 0⟩ 100 =
      (.error (.err .unexpectedEof), BufReader.save_cursor ⟨[5], 7, List.replicate 30 0⟩) :=
  ⟨by decide,
   (C7_offset_read_frame ⟨[5], 7, List.replicate 30 0⟩ 100 GpsInfo.new).2.1 (by decide)⟩

/-- Claim C5 (amended): for a latitude-quadrant or longitude-quadrant entry,
an inline value that is a Unicode scalar is accepted silently (no log, the
entry counts toward the six essentials) with sign -1 exactly for the letter
S (latitude) resp. W (longitude) and +1 for every other character; an inline
value that is NOT a Unicode scalar makes `char::from_u32(..).expect(..)`
panic, aborting the whole process instead of being a non-fatal per-file
condition. -/
theorem C5_quadrant_handling (b : BufReader) (st : GpsLoopState) (e : IfdEntry) :
    (e.tag = LAT_Q →
      (char_from_u32 e.offset = none → gps_dispatch b st e = (.error .panic, b)) ∧
      (∀ c, char_from_u32 e.offset = some c →
         gps_dispatch b st e =
           (.ok { st with lat_sign := if c = 83 then -1 else 1,
                          essentials := st.essentials + 1 }, b))) ∧
    (e.tag = LONG_Q →
      (char_from_u32 e.offset = none → gps_dispatch b st e = (.error .panic, b)) ∧
      (∀ c, char_from_u32 e.offset = some c →
         gps_dispatch b st e =
           (.ok { st with lon_sign := if c = 87 then -1 else 1,
                          essentials := st.essentials + 1 }, b))) := by
  constructor
  · intro ht
    unfold gps_dispatch
    rw [if_pos ht]
    exact ⟨fun hc => by rw [hc], fun c hc => by rw [hc]⟩
  · intro ht
    unfold gps_dispatch
    rw [if_neg (by rw [ht]; decide), if_pos ht]
    exact ⟨fun hc => by rw [hc], fun c hc => by rw [hc]⟩

/-- Counterexample for C5 as stated: a GPS IFD with one latitude-quadrant
entry whose inline value 0xD800 (a surrogate, hence not a scalar value)
makes `process_gps_section` abort the process (panic), which is neither
logged-and-skipped nor a non-fatal per-file error. -/
theorem C5_counterexample :
    (process_gps_section
        ⟨[], 0, [1, 0, 1, 0, 0, 0, 0, 0, 0, 0, 0, 216, 0, 0]⟩).1 = .error .panic := by
  decide

/-- Witness for C5: the letter S (code 83) as latitude quadrant gives the
sign -1 and counts as an essential entry. -/
theorem C5_quadrant_handling_witness :
    ((1 : Nat) = LAT_Q) ∧ (char_from_u32 83 = some 83) ∧
    gps_dispatch ⟨[], 0, []⟩ gpsInitState ⟨1, 0, 0, 83⟩ =
      (.ok ⟨GpsInfo.new, -1, 1, 1⟩, ⟨[], 0, []⟩) :=
  ⟨rfl, by decide,
   ((C5_quadrant_handling ⟨[], 0, []⟩ gpsInitState ⟨1, 0, 0, 83⟩).1 rfl).2 83 (by decide)⟩

lemma getD_take_drop (l : List Nat) (c n i : Nat) (h : i < n) :
    ((l.drop c).take n).getD i 0 = l.getD (c + i) 0 := by
  simp [List.getD_eq_getElem?_getD, List.getElem?_take, h, List.getElem?_drop]

lemma read_u16_ok (b : BufReader) (h : b.cursor + 2 ≤ b.buffer.length) :
    read_u16 b = .ok (le16 (b.buffer.getD b.cursor 0) (b.buffer.getD (b.cursor + 1) 0),
                      { b with cursor := b.cursor + 2 }) := by
  unfold read_u16
  rw [read_eq_ok _ _ h]
  dsimp only
  rw [getD_take_drop b.buffer b.cursor 2 0 (by omega),
      getD_take_drop b.buffer b.cursor 2 1 (by omega)]
  norm_num

lemma read_ifd_entry_ok (b : BufReader) (h : b.cursor + 12 ≤ b.buffer.length) :
    read_ifd_entry b = .ok (entryAt b.buffer b.cursor, { b with cursor := b.cursor + 12 }) := by
  unfold read_ifd_entry entryAt
  rw [read_eq_ok _ _ h]
  dsimp only
  rw [getD_take_drop b.buffer b.cursor 12 0 (by omega),
      getD_take_drop b.buffer b.cursor 12 1 (by omega),
      getD_take_drop b.buffer b.cursor 12 2 (by omega),
      getD_take_drop b.buffer b.cursor 12 3 (by omega),
      getD_take_drop b.buffer b.cursor 12 4 (by omega),
      getD_take_drop b.buffer b.cursor 12 5 (by omega),
      getD_take_drop b.buffer b.cursor 12 6 (by omega),
      getD_take_drop b.buffer b.cursor 12 7 (by omega),
      getD_take_drop b.buffer b.cursor 12 8 (by omega),
      getD_take_drop b.buffer b.cursor 12 9 (by omega),
      getD_take_drop b.buffer b.cursor 12 10 (by omega),
      getD_take_drop b.buffer b.cursor 12 11 (by omega)]
  norm_num

/-- A successful `floats_from_rational` call leaves the reader unchanged. -/
lemma floats_from_rational_frame (b : BufReader) (off : Nat) (r : List FVal)
    (h : (floats_from_rational b off).1 = .ok r) :
    (floats_from_rational b off).2 = b := by
  by_cases h1 : off < b.buffer.length
  · by_cases h2 : off + 24 ≤ b.buffer.length
    · rw [floats_from_rational_ok b off h1 h2]
    · simp [floats_from_rational_read_err b off h1 (by omega)] at h
  · simp [floats_from_rational_seek_err b off (by omega)] at h


/-- A successful `f64_from_ifd` call leaves the reader unchanged. -/
lemma f64_from_ifd_frame (b : BufReader) (off : Nat) (v : ℚ)
    (h : (f64_from_ifd b off).1 = .ok v) :
    (f64_from_ifd b off).2 = b := by
  unfold f64_from_ifd at h ⊢
  rcases hfl : floats_from_rational b off with ⟨fst, snd⟩
  rw [hfl] at h
  cases fst with
  | error e => simp at h
  | ok floats =>
    have hfr := floats_from_rational_frame b off floats (by rw [hfl])
    rw [hfl] at hfr
    dsimp only at h ⊢
    simpa using hfr

/-- A successful `process_timestamp` call leaves the reader unchanged. -/
lemma process_timestamp_frame (wp : GpsInfo) (b : BufReader) (off : Nat) (v : GpsInfo)
    (h : (wp.process_timestamp b off).1 = .ok v) :
    (wp.process_timestamp b off).2 = b := by
  unfold GpsInfo.process_timestamp at h ⊢
  rcases hfl : floats_from_rational b off with ⟨fst, snd⟩
  rw [hfl] at h
  cases fst with
  | error e => simp at h
  | ok floats =>
    have hfr := floats_from_rational_frame b off floats (by rw [hfl])
    rw [hfl] at hfr
    dsimp only at h ⊢
    simpa using hfr

/-- A successful `process_datestamp` call leaves the reader unchanged. -/
lemma process_datestamp_frame_ok (wp : GpsInfo) (b : BufReader) (off : Nat) (v : GpsInfo)
    (h : (wp.process_datestamp b off).1 = .ok v) :
    (wp.process_datestamp b off).2 = b := by
  by_cases h1 : off < b.buffer.length
  · by_cases h2 : off + 10 ≤ b.buffer.length
    · exact process_datestamp_frame wp b off h1 h2
    · simp [process_datestamp_read_err wp b off h1 (by omega)] at h
  · simp [process_datestamp_seek_err wp b off (by omega)] at h

/-- A successful dispatch leaves the reader unchanged and adds one to the
essentials count exactly when the tag is one of the six recognized ones. -/
lemma gps_dispatch_ok (b : BufReader) (st : GpsLoopState) (e : IfdEntry) (st1 : GpsLoopState)
    (h : (gps_dispatch b st e).1 = .ok st1) :
    (gps_dispatch b st e).2 = b ∧
    st1.essentials = st.essentials + (if recognizedTag e.tag then 1 else 0) := by
  unfold gps_dispatch at h ⊢
  dsimp only at h ⊢
  by_cases h1 : e.tag = LAT_Q
  · rw [if_pos h1] at h ⊢
    cases hc : char_from_u32 e.offset with
    | none => rw [hc] at h; simp at h
    | some c =>
      rw [hc] at h
      simp only [Except.ok.injEq] at h
      subst h
      exact ⟨rfl, by simp [recognizedTag, h1, LAT_Q]⟩
  rw [if_neg h1] at h ⊢
  by_cases h2 : e.tag = LONG_Q
  · rw [if_pos h2] at h ⊢
    cases hc : char_from_u32 e.offset with
    | none => rw [hc] at h; simp at h
    | some c =>
      rw [hc] at h
      simp only [Except.ok.injEq] at h
      subst h
      exact ⟨rfl, by simp [recognizedTag, h2, LONG_Q]⟩
  rw [if_neg h2] at h ⊢
  by_cases h3 : e.tag = LAT_V
  · rw [if_pos h3] at h ⊢
    rcases hv : f64_from_ifd b e.offset with ⟨fst, snd⟩
    rw [hv] at h
    cases fst with
    | error e1 => simp at h
    | ok v =>
      simp only [Except.ok.injEq] at h
      subst h
      have hfr := f64_from_ifd_frame b e.offset v (by rw [hv])
      rw [hv] at hfr
      exact ⟨by simpa using hfr, by simp [recognizedTag, h3, LAT_V]⟩
  rw [if_neg h3] at h ⊢
  by_cases h4 : e.tag = LONG_V
  · rw [if_pos h4] at h ⊢
    rcases hv : f64_from_ifd b e.offset with ⟨fst, snd⟩
    rw [hv] at h
    cases fst with
    | error e1 => simp at h
    | ok v =>
      simp only [Except.ok.injEq] at h
      subst h
      have hfr := f64_from_ifd_frame b e.offset v (by rw [hv])
      rw [hv] at hfr
      exact ⟨by simpa using hfr, by simp [recognizedTag, h4, LONG_V]⟩
  rw [if_neg h4] at h ⊢
  by_cases h5 : e.tag = TIMESTAMP
  · rw [if_pos h5] at h ⊢
    rcases hv : st.waypoint.process_timestamp b e.offset with ⟨fst, snd⟩
    rw [hv] at h
    cases fst with
    | error e1 => simp at h
    | ok wp1 =>
      simp only [Except.ok.injEq] at h
      subst h
      have hfr := process_timestamp_frame st.waypoint b e.offset wp1 (by rw [hv])
      rw [hv] at hfr
      exact ⟨by simpa using hfr, by simp [recognizedTag, h5, TIMESTAMP]⟩
  rw [if_neg h5] at h ⊢
  by_cases h6 : e.tag = DATESTAMP
  · rw [if_pos h6] at h ⊢
    rcases hv : st.waypoint.process_datestamp b e.offset with ⟨fst, snd⟩
    rw [hv] at h
    cases fst with
    | error e1 => simp at h
    | ok wp1 =>
      simp only [Except.ok.injEq] at h
      subst h
      have hfr := process_datestamp_frame_ok st.waypoint b e.offset wp1 (by rw [hv])
      rw [hv] at hfr
      exact ⟨by simpa using hfr, by simp [recognizedTag, h6, DATESTAMP]⟩
  rw [if_neg h6] at h ⊢
  simp only [Except.ok.injEq] at h
  subst h
  refine ⟨rfl, ?_⟩
  have hr : recognizedTag e.tag = false := by
    simp only [recognizedTag, LAT_Q, LONG_Q, LAT_V, LONG_V, TIMESTAMP, DATESTAMP,
      Bool.or_eq_false_iff, beq_eq_false_iff_ne, ne_eq]
    refine ⟨⟨⟨⟨⟨?_, ?_⟩, ?_⟩, ?_⟩, ?_⟩, ?_⟩ <;> simp_all [LAT_Q, LONG_Q, LAT_V, LONG_V, TIMESTAMP, DATESTAMP]
  rw [hr]
  simp

/-- `process_timestamp` on in-bounds arguments: value formula and frame. -/
lemma process_timestamp_ok (wp : GpsInfo) (b : BufReader) (off : Nat)
    (h1 : off < b.buffer.length) (h2 : off + 24 ≤ b.buffer.length) :
    wp.process_timestamp b off =
      (let floats := rational_to_floats ((b.buffer.drop off).take 24)
       (.ok { wp with time := wp.time +
          f64_cast_u64 ((((floats.getD 0 .nan).mulC 3600).add
            ((floats.getD 1 .nan).mulC 60)).add (floats.getD 2 .nan)) }, b)) := by
  unfold GpsInfo.process_timestamp
  rw [floats_from_rational_ok b off h1 h2]

/-- `process_datestamp` on in-bounds arguments whose date fields parse with
month and day at least 1: value formula and frame. -/
lemma process_datestamp_ok (wp : GpsInfo) (b : BufReader) (off year month day : Nat)
    (h1 : off < b.buffer.length) (h2 : off + 10 ≤ b.buffer.length)
    (hy : parse_u64 (((b.buffer.drop off).take 10).take 4) = some year)
    (hm : parse_u64 ((((b.buffer.drop off).take 10).drop 5).take 2) = some month)
    (hd : parse_u64 ((((b.buffer.drop off).take 10).drop 8).take 2) = some day)
    (hm1 : 1 ≤ month) (hd1 : 1 ≤ day) :
    wp.process_datestamp b off =
      (.ok { wp with time := wp.time + year * 31 * 12 * 24 * 60 * 60
              + (month - 1) * 31 * 24 * 60 * 60 + (day - 1) * 24 * 60 * 60 }, b) := by
  unfold GpsInfo.process_datestamp
  dsimp only
  rw [set_cursor_eq_ok _ _ (by simpa [BufReader.save_cursor] using h1)]
  simp only [BufReader.save_cursor]
  rw [read_eq_ok _ _ (by simpa using h2)]
  dsimp only
  rw [restore_cursor_cons _ b.cursor b.cursorStack (by rfl)]
  dsimp only
  unfold get_num
  rw [hy, hm, hd]
  dsimp only
  unfold checked_sub
  rw [if_pos hm1, if_pos hd1]

/-- When `entry_decode_ok` holds, the dispatch of the entry succeeds and
leaves the reader unchanged. -/
lemma gps_dispatch_total (b : BufReader) (st : GpsLoopState) (e : IfdEntry)
    (h : entry_decode_ok b.buffer e = true) :
    ∃ st1, gps_dispatch b st e = (.ok st1, b) := by
  unfold entry_decode_ok at h
  unfold gps_dispatch
  dsimp only
  by_cases h1 : e.tag = LAT_Q
  · rw [if_pos h1]
    rw [if_pos (show (e.tag == LAT_Q || e.tag == LONG_Q) = true by simp [h1])] at h
    obtain ⟨c, hc⟩ := Option.isSome_iff_exists.mp h
    rw [hc]
    exact ⟨_, rfl⟩
  rw [if_neg h1]
  by_cases h2 : e.tag = LONG_Q
  · rw [if_pos h2]
    rw [if_pos (show (e.tag == LAT_Q || e.tag == LONG_Q) = true by simp [h2])] at h
    obtain ⟨c, hc⟩ := Option.isSome_iff_exists.mp h
    rw [hc]
    exact ⟨_, rfl⟩
  rw [if_neg h2]
  have hq : (e.tag == LAT_Q || e.tag == LONG_Q) = false := by
    simp [h1, h2]
  rw [if_neg (by simp [hq])] at h
  by_cases h3 : e.tag = LAT_V
  · rw [if_pos h3]
    rw [if_pos (show (e.tag == LAT_V || e.tag == LONG_V || e.tag == TIMESTAMP) = true
          by simp [h3])] at h
    simp only [Bool.and_eq_true, decide_eq_true_eq] at h
    rw [f64_from_ifd_ok b e.offset h.1 h.2]
    exact ⟨_, rfl⟩
  rw [if_neg h3]
  by_cases h4 : e.tag = LONG_V
  · rw [if_pos h4]
    rw [if_pos (show (e.tag == LAT_V || e.tag == LONG_V || e.tag == TIMESTAMP) = true
          by simp [h4])] at h
    simp only [Bool.and_eq_true, decide_eq_true_eq] at h
    rw [f64_from_ifd_ok b e.offset h.1 h.2]
    exact ⟨_, rfl⟩
  rw [if_neg h4]
  by_cases h5 : e.tag = TIMESTAMP
  · rw [if_pos h5]
    rw [if_pos (show (e.tag == LAT_V || e.tag == LONG_V || e.tag == TIMESTAMP) = true
          by simp [h5])] at h
    simp only [Bool.and_eq_true, decide_eq_true_eq] at h
    rw [process_timestamp_ok st.waypoint b e.offset h.1 h.2]
    exact ⟨_, rfl⟩
  rw [if_neg h5]
  have hv : (e.tag == LAT_V || e.tag == LONG_V || e.tag == TIMESTAMP) = false := by
    simp [h3, h4, h5]
  rw [if_neg (by simp [hv])] at h
  by_cases h6 : e.tag = DATESTAMP
  · rw [if_pos h6]
    rw [if_pos (show (e.tag == DATESTAMP) = true by simp [h6])] at h
    simp only [Bool.and_eq_true, decide_eq_true_eq, Option.isSome_iff_exists] at h
    obtain ⟨⟨hb1, hb2⟩, ⟨⟨⟨⟨year, hy⟩, hm1⟩, hd1⟩, month, hm⟩, day, hd⟩ := h
    rw [hm] at hm1
    rw [hd] at hd1
    simp only [Option.getD_some] at hm1 hd1
    rw [process_datestamp_ok st.waypoint b e.offset year month day hb1 hb2 hy hm hd hm1 hd1]
    exact ⟨_, rfl⟩
  rw [if_neg h6]
  exact ⟨_, rfl⟩

lemma read_ifd_entry_ok_inv (b : BufReader) (entry : IfdEntry) (b1 : BufReader)
    (h : read_ifd_entry b = .ok (entry, b1)) :
    b.cursor + 12 ≤ b.buffer.length ∧ entry = entryAt b.buffer b.cursor ∧
    b1 = { b with cursor := b.cursor + 12 } := by
  by_cases hb : b.cursor + 12 ≤ b.buffer.length
  · rw [read_ifd_entry_ok b hb] at h
    simp only [Except.ok.injEq, Prod.mk.injEq] at h
    exact ⟨hb, h.1.symm, h.2.symm⟩
  · unfold read_ifd_entry at h
    rw [read_eq_err _ _ (by omega)] at h
    simp at h

/-- Whenever the GPS entry loop completes successfully, the essentials count
it accumulates is exactly the number of recognized tags among the entries
laid out at the starting cursor, and the cursor has advanced over them. -/
lemma process_gps_entries_ok_count (n : Nat) :
    ∀ (b : BufReader) (st st1 : GpsLoopState) (b2 : BufReader),
      process_gps_entries b st n = (.ok st1, b2) →
      st1.essentials = st.essentials + matchedCount b.buffer b.cursor n ∧
      b2 = { b with cursor := b.cursor + 12 * n } := by
  induction n with
  | zero =>
    intro b st st1 b2 h
    unfold process_gps_entries at h
    simp only [Prod.mk.injEq, Except.ok.injEq] at h
    obtain ⟨rfl, rfl⟩ := h
    constructor
    · simp [matchedCount]
    · cases b; simp
  | succ n ih =>
    intro b st st1 b2 h
    unfold process_gps_entries at h
    rcases hre : read_ifd_entry b with ⟨e⟩ | ⟨entry, b1⟩
    · rw [hre] at h; simp at h
    · rw [hre] at h
      obtain ⟨hb12, rfl, rfl⟩ := read_ifd_entry_ok_inv b entry b1 hre
      dsimp only at h
      rcases hd : gps_dispatch { b with cursor := b.cursor + 12 } st (entryAt b.buffer b.cursor)
        with ⟨fst, bd⟩
      rw [hd] at h
      cases fst with
      | error e1 => simp at h
      | ok st2 =>
        have hdo := gps_dispatch_ok { b with cursor := b.cursor + 12 } st
          (entryAt b.buffer b.cursor) st2 (by rw [hd])
        rw [hd] at hdo
        obtain ⟨hbd, hess⟩ := hdo
        dsimp only at h hbd
        subst hbd
        obtain ⟨hcount, hb2⟩ := ih _ _ _ _ h
        dsimp only at hcount hb2
        constructor
        · rw [hcount, hess]
          show _ = st.essentials + matchedCount b.buffer b.cursor (n + 1)
          rw [matchedCount]
          cases hrt : recognizedTag (entryAt b.buffer b.cursor).tag <;>
        simp [hrt] <;> omega
        · rw [hb2]
          simp only [BufReader.mk.injEq, true_and, and_true]
          omega

/-- When the buffer holds `n` entries at the cursor and each of them decodes,
the GPS entry loop completes successfully. -/
lemma process_gps_entries_total (n : Nat) :
    ∀ (b : BufReader) (st : GpsLoopState),
      b.cursor + 12 * n ≤ b.buffer.length →
      (∀ i, i < n → entry_decode_ok b.buffer (entryAt b.buffer (b.cursor + 12 * i)) = true) →
      ∃ st1, process_gps_entries b st n = (.ok st1, { b with cursor := b.cursor + 12 * n }) := by
  induction n with
  | zero =>
    intro b st _ _
    refine ⟨st, ?_⟩
    unfold process_gps_entries
    cases b; simp
  | succ n ih =>
    intro b st hlen hok
    unfold process_gps_entries
    rw [read_ifd_entry_ok b (by omega)]
    dsimp only
    obtain ⟨st2, hd⟩ := gps_dispatch_total { b with cursor := b.cursor + 12 } st
      (entryAt b.buffer b.cursor) (by
        have h0 := hok 0 (by omega)
        simpa using h0)
    rw [hd]
    dsimp only
    obtain ⟨st1, hrest⟩ := ih { b with cursor := b.cursor + 12 } st2
      (by dsimp only; omega)
      (by
        intro i hi
        have heq : b.cursor + 12 + 12 * i = b.cursor + 12 * (i + 1) := by omega
        dsimp only
        rw [heq]
        exact hok (i + 1) (by omega))
    rw [hrest]
    refine ⟨st1, ?_⟩
    have heq2 : b.cursor + 12 + 12 * n = b.cursor + 12 * (n + 1) := by omega
    simp only [Prod.mk.injEq, BufReader.mk.injEq, true_and, and_true]
    omega

/-- Claim C3 (amended): when every entry of the GPS IFD decodes successfully
(quadrant inline values are Unicode scalars, out-of-line reads are in
bounds, datestamp fields parse with month and day at least 1),
`process_gps_section` returns a waypoint exactly when the number of entries
carrying one of the six recognized tags (duplicates each counting,
unrecognized tags not counting) is six, and any other matched count yields
the non-fatal `Other` error.  (Without the decode hypotheses the equivalence
fails; see the counterexample.) -/
theorem C3_six_essential_entries (b : BufReader) (n : Nat)
    (hn : le16 (b.buffer.getD b.cursor 0) (b.buffer.getD (b.cursor + 1) 0) = n)
    (hc : b.cursor + 2 ≤ b.buffer.length)
    (hsz : b.cursor + 2 + 12 * n ≤ b.buffer.length)
    (hok : ∀ i, i < n →
        entry_decode_ok b.buffer (entryAt b.buffer (b.cursor + 2 + 12 * i)) = true) :
    ((∃ wp b2, process_gps_section b = (.ok wp, b2)) ↔
       matchedCount b.buffer (b.cursor + 2) n = NUM_ESSENTIAL_ENTRIES) ∧
    (matchedCount b.buffer (b.cursor + 2) n ≠ NUM_ESSENTIAL_ENTRIES →
       (process_gps_section b).1 = .error (.err .other)) := by
  unfold process_gps_section
  rw [read_u16_ok b hc, hn]
  dsimp only
  obtain ⟨st1, hloop⟩ := process_gps_entries_total n { b with cursor := b.cursor + 2 }
    gpsInitState (by dsimp only; omega) (by intro i hi; dsimp only; exact hok i hi)
  have hcount := process_gps_entries_ok_count n { b with cursor := b.cursor + 2 }
    gpsInitState st1 _ hloop
  dsimp only at hcount
  obtain ⟨hess, -⟩ := hcount
  rw [hloop]
  dsimp only
  simp only [gpsInitState, Nat.zero_add] at hess
  by_cases hm : matchedCount b.buffer (b.cursor + 2) n = NUM_ESSENTIAL_ENTRIES
  · rw [if_pos (by rw [hess]; exact hm)]
    refine ⟨⟨fun _ => hm, fun _ => ⟨_, _, rfl⟩⟩, fun hne => absurd hm hne⟩
  · rw [if_neg (by rw [hess]; exact hm)]
    refine ⟨⟨?_, fun hmm => absurd hmm hm⟩, fun _ => rfl⟩
    rintro ⟨wp, b2, hwp⟩
    simp at hwp

/-- Counterexample for C3 as stated: a GPS IFD with exactly six entries all
carrying the recognized latitude-value tag, but whose value offsets (255)
point outside the buffer: six recognized tags are iterated, yet no waypoint
is produced — the decode fails with `UnexpectedEof` (which `main` even
treats as fatal, unlike the `Other` incomplete-directory report). -/
theorem C3_counterexample :
    matchedCount
      [6, 0, 2, 0, 0, 0, 0, 0, 0, 0, 255, 0, 0, 0, 2, 0, 0, 0, 0, 0, 0, 0, 255, 0, 0, 0,
       2, 0, 0, 0, 0, 0, 0, 0, 255, 0, 0, 0, 2, 0, 0, 0, 0, 0, 0, 0, 255, 0, 0, 0,
       2, 0, 0, 0, 0, 0, 0, 0, 255, 0, 0, 0, 2, 0, 0, 0, 0, 0, 0, 0, 255, 0, 0, 0] 2 6 =
      NUM_ESSENTIAL_ENTRIES ∧
    (process_gps_section
      ⟨[], 0,
       [6, 0, 2, 0, 0, 0, 0, 0, 0, 0, 255, 0, 0, 0, 2, 0, 0, 0, 0, 0, 0, 0, 255, 0, 0, 0,
        2, 0, 0, 0, 0, 0, 0, 0, 255, 0, 0, 0, 2, 0, 0, 0, 0, 0, 0, 0, 255, 0, 0, 0,
        2, 0, 0, 0, 0, 0, 0, 0, 255, 0, 0, 0, 2, 0, 0, 0, 0, 0, 0, 0, 255, 0, 0, 0]⟩).1 =
      .error (.err .unexpectedEof) := by
  constructor <;> decide

/-- A complete, well-formed GPS IFD buffer: six entries (latitude quadrant
S, latitude value at 74, longitude quadrant E, longitude value at 74,
timestamp at 98, datestamp at 122), a (1, 30, 0) degrees/minutes/seconds
rational triple at 74, a (0, 0, 0) time triple at 98, and the ASCII date
2020:01:01 at 122. -/
def gpsDemoBuf : List Nat :=
  [6, 0,
   1, 0, 0, 0, 0, 0, 0, 0, 83, 0, 0, 0,
   2, 0, 0, 0, 0, 0, 0, 0, 74, 0, 0, 0,
   3, 0, 0, 0, 0, 0, 0, 0, 69, 0, 0, 0,
   4, 0, 0, 0, 0, 0, 0, 0, 74, 0, 0, 0,
   7, 0, 0, 0, 0, 0, 0, 0, 98, 0, 0, 0,
   29, 0, 0, 0, 0, 0, 0, 0, 122, 0, 0, 0] ++
  (u32le 1 ++ u32le 1 ++ u32le 30 ++ u32le 1 ++ u32le 0 ++ u32le 1) ++
  (u32le 0 ++ u32le 1 ++ u32le 0 ++ u32le 1 ++ u32le 0 ++ u32le 1) ++
  [50, 48, 50, 48, 58, 48, 49, 58, 48, 49]

-- Witness for C3 on a complete well-formed GPS IFD with six essential
-- entries.
set_option maxRecDepth 8000 in
theorem C3_six_essential_entries_witness :
    (∀ i, i < 6 →
        entry_decode_ok gpsDemoBuf (entryAt gpsDemoBuf (0 + 2 + 12 * i)) = true) ∧
    ((∃ wp b2, process_gps_section ⟨[], 0, gpsDemoBuf⟩ = (.ok wp, b2)) ↔
       matchedCount gpsDemoBuf (0 + 2) 6 = NUM_ESSENTIAL_ENTRIES) :=
  ⟨by decide,
   (C3_six_essential_entries ⟨[], 0, gpsDemoBuf⟩ 6 (by decide) (by decide) (by decide)
     (by decide)).1⟩

/-- Decoding three little-endian-encoded `u32` pairs reproduces the numeric
quotients. -/
lemma rational_to_floats_encode (n0 d0 n1 d1 n2 d2 : Nat)
    (b0 : n0 < 4294967296) (b1 : d0 < 4294967296) (b2 : n1 < 4294967296)
    (b3 : d1 < 4294967296) (b4 : n2 < 4294967296) (b5 : d2 < 4294967296) :
    rational_to_floats
        (u32le n0 ++ u32le d0 ++ u32le n1 ++ u32le d1 ++ u32le n2 ++ u32le d2) =
      [ratDiv n0 d0, ratDiv n1 d1, ratDiv n2 d2] := by
  unfold rational_to_floats u32le
  simp only [List.cons_append, List.nil_append, List.getD_cons_zero, List.getD_cons_succ,
    List.cons.injEq, and_true]
  refine ⟨?_, ?_, ?_⟩ <;> · congr 1 <;> (unfold le32; omega)

/-- The coordinate decode of `f64_from_ifd` on a rational triple of `u32`
pairs with nonzero denominators: the combined value is truncated toward
zero at 5 decimal digits by the `as u64` cast, and the reader is left
untouched. -/
lemma f64_from_ifd_truncation (b : BufReader) (off n0 d0 n1 d1 n2 d2 : Nat)
    (hbytes : (b.buffer.drop off).take 24 =
        u32le n0 ++ u32le d0 ++ u32le n1 ++ u32le d1 ++ u32le n2 ++ u32le d2)
    (b0 : n0 < 4294967296) (b1 : d0 < 4294967296) (b2 : n1 < 4294967296)
    (b3 : d1 < 4294967296) (b4 : n2 < 4294967296) (b5 : d2 < 4294967296)
    (hd0 : d0 ≠ 0) (hd1 : d1 ≠ 0) (hd2 : d2 ≠ 0)
    (ho1 : off < b.buffer.length) (ho2 : off + 24 ≤ b.buffer.length) :
    f64_from_ifd b off =
      (.ok ((⌊((n0 : ℚ) / d0 + ((n1 : ℚ) / d1 * 60 + (n2 : ℚ) / d2) / 3600) * 100000⌋₊ : ℚ)
              / 100000), b) := by
  rw [f64_from_ifd_ok b off ho1 ho2]
  dsimp only
  rw [hbytes, rational_to_floats_encode n0 d0 n1 d1 n2 d2 b0 b1 b2 b3 b4 b5]
  have r0 : ratDiv n0 d0 = .finite ((n0 : ℚ) / d0) := by unfold ratDiv; rw [if_neg hd0]
  have r1 : ratDiv n1 d1 = .finite ((n1 : ℚ) / d1) := by unfold ratDiv; rw [if_neg hd1]
  have r2 : ratDiv n2 d2 = .finite ((n2 : ℚ) / d2) := by unfold ratDiv; rw [if_neg hd2]
  rw [r0, r1, r2]
  simp only [List.getD_cons_zero, List.getD_cons_succ, FVal.mulC, FVal.add, FVal.divC,
    f64_cast_u64]
  have hq0 : (n0 : ℚ) / d0 ≤ 4294967295 := by
    have h1le : (1 : ℚ) ≤ (d0 : ℚ) := by exact_mod_cast Nat.one_le_iff_ne_zero.mpr hd0
    calc (n0 : ℚ) / d0 ≤ (n0 : ℚ) := div_le_self (by positivity) h1le
    _ ≤ 4294967295 := by exact_mod_cast Nat.lt_succ_iff.mp b0
  have hq1 : (n1 : ℚ) / d1 ≤ 4294967295 := by
    have h1le : (1 : ℚ) ≤ (d1 : ℚ) := by exact_mod_cast Nat.one_le_iff_ne_zero.mpr hd1
    calc (n1 : ℚ) / d1 ≤ (n1 : ℚ) := div_le_self (by positivity) h1le
    _ ≤ 4294967295 := by exact_mod_cast Nat.lt_succ_iff.mp b2
  have hq2 : (n2 : ℚ) / d2 ≤ 4294967295 := by
    have h1le : (1 : ℚ) ≤ (d2 : ℚ) := by exact_mod_cast Nat.one_le_iff_ne_zero.mpr hd2
    calc (n2 : ℚ) / d2 ≤ (n2 : ℚ) := div_le_self (by positivity) h1le
    _ ≤ 4294967295 := by exact_mod_cast Nat.lt_succ_iff.mp b4
  have hmin : ⌊((n0 : ℚ) / d0 + ((n1 : ℚ) / d1 * 60 + (n2 : ℚ) / d2) / 3600) * 100000⌋₊
      ≤ 18446744073709551615 := by
    have hle : ((n0 : ℚ) / d0 + ((n1 : ℚ) / d1 * 60 + (n2 : ℚ) / d2) / 3600) * 100000
        ≤ (18446744073709551615 : ℚ) := by
      have e1 : (0 : ℚ) ≤ (n1 : ℚ) / d1 := by positivity
      have e2 : (0 : ℚ) ≤ (n2 : ℚ) / d2 := by positivity
      nlinarith [hq0, hq1, hq2]
    calc ⌊((n0 : ℚ) / d0 + ((n1 : ℚ) / d1 * 60 + (n2 : ℚ) / d2) / 3600) * 100000⌋₊
        ≤ ⌊(18446744073709551615 : ℚ)⌋₊ := Nat.floor_le_floor hle
    _ = 18446744073709551615 := by
        rw [Nat.floor_eq_iff (by positivity)]
        norm_num
  rw [min_eq_left hmin]

/-- One unrolling of the GPS entry loop. -/
lemma process_gps_entries_step (b : BufReader) (st : GpsLoopState) (n : Nat)
    (entry : IfdEntry) (b1 : BufReader) (st1 : GpsLoopState) (b2 : BufReader)
    (hre : read_ifd_entry b = .ok (entry, b1))
    (hd : gps_dispatch b1 st entry = (.ok st1, b2)) :
    process_gps_entries b st (n + 1) = process_gps_entries b2 st1 n := by
  calc process_gps_entries b st (n + 1)
      = (match read_ifd_entry b with
         | .error e => (.error e, b)
         | .ok (entry, b1) =>
           match gps_dispatch b1 st entry with
           | (.error e, b2) => (.error e, b2)
           | (.ok st1, b2) => process_gps_entries b2 st1 n) := rfl
    _ = process_gps_entries b2 st1 n := by
        rw [hre]
        dsimp only
        rw [hd]

-- End-to-end evaluation of `process_gps_section` on the demo GPS IFD:
-- latitude 1.5 degrees negated by the S quadrant, longitude 1.5 degrees kept
-- positive by the E quadrant, and the composite time of 2020:01:01 00:00:00.
set_option maxRecDepth 8000 in
lemma gpsDemo_eval :
    process_gps_section ⟨[], 0, gpsDemoBuf⟩ =
      (.ok ⟨-(3/2 : ℚ), 3/2, 64924416000⟩, ⟨[], 74, gpsDemoBuf⟩) := by
  have hval : ∀ c : Nat, f64_from_ifd ⟨[], c, gpsDemoBuf⟩ 74 =
      (.ok (3/2 : ℚ), ⟨[], c, gpsDemoBuf⟩) := by
    intro c
    rw [f64_from_ifd_truncation ⟨[], c, gpsDemoBuf⟩ 74 1 1 30 1 0 1
      (by show (gpsDemoBuf.drop 74).take 24 =
            u32le 1 ++ u32le 1 ++ u32le 30 ++ u32le 1 ++ u32le 0 ++ u32le 1
          decide)
      (by decide) (by decide) (by decide) (by decide) (by decide) (by decide) (by decide)
      (by decide) (by decide)
      (by show 74 < gpsDemoBuf.length
          decide)
      (by show 74 + 24 ≤ gpsDemoBuf.length
          decide)]
    have h1 : (((1 : Nat) : ℚ) / ((1 : Nat) : ℚ)
        + (((30 : Nat) : ℚ) / ((1 : Nat) : ℚ) * 60 + ((0 : Nat) : ℚ) / ((1 : Nat) : ℚ)) / 3600)
        * 100000 = 150000 := by push_cast; norm_num
    rw [h1]
    have h2 : ⌊(150000 : ℚ)⌋₊ = 150000 := by
      rw [Nat.floor_eq_iff (by positivity)]
      norm_num
    rw [h2]
    norm_num
  have hd1 : gps_dispatch ⟨[], 14, gpsDemoBuf⟩ gpsInitState ⟨1, 0, 0, 83⟩ =
      (.ok ⟨GpsInfo.new, -1, 1, 1⟩, ⟨[], 14, gpsDemoBuf⟩) := by
    simp [gps_dispatch, LAT_Q, char_from_u32, gpsInitState]
  have hd2 : gps_dispatch ⟨[], 26, gpsDemoBuf⟩ (⟨GpsInfo.new, -1, 1, 1⟩ : GpsLoopState)
      ⟨2, 0, 0, 74⟩ = (.ok ⟨⟨3/2, 0, 0⟩, -1, 1, 2⟩, ⟨[], 26, gpsDemoBuf⟩) := by
    unfold gps_dispatch
    rw [if_neg (by decide), if_neg (by decide), if_pos (by decide : (2 : Nat) = LAT_V)]
    rw [hval 26]
    rfl
  have hd3 : gps_dispatch ⟨[], 38, gpsDemoBuf⟩ (⟨⟨3/2, 0, 0⟩, -1, 1, 2⟩ : GpsLoopState)
      ⟨3, 0, 0, 69⟩ = (.ok ⟨⟨3/2, 0, 0⟩, -1, 1, 3⟩, ⟨[], 38, gpsDemoBuf⟩) := by
    simp [gps_dispatch, LAT_Q, LONG_Q, char_from_u32]
  have hd4 : gps_dispatch ⟨[], 50, gpsDemoBuf⟩ (⟨⟨3/2, 0, 0⟩, -1, 1, 3⟩ : GpsLoopState)
      ⟨4, 0, 0, 74⟩ = (.ok ⟨⟨3/2, 3/2, 0⟩, -1, 1, 4⟩, ⟨[], 50, gpsDemoBuf⟩) := by
    unfold gps_dispatch
    rw [if_neg (by decide), if_neg (by decide), if_neg (by decide),
      if_pos (by decide : (4 : Nat) = LONG_V)]
    rw [hval 50]
  have hd5 : gps_dispatch ⟨[], 62, gpsDemoBuf⟩ (⟨⟨3/2, 3/2, 0⟩, -1, 1, 4⟩ : GpsLoopState)
      ⟨7, 0, 0, 98⟩ = (.ok ⟨⟨3/2, 3/2, 0⟩, -1, 1, 5⟩, ⟨[], 62, gpsDemoBuf⟩) := by
    unfold gps_dispatch
    rw [if_neg (by decide), if_neg (by decide), if_neg (by decide), if_neg (by decide),
      if_pos (by decide : (7 : Nat) = TIMESTAMP)]
    rw [process_timestamp_ok _ _ _ (by decide) (by decide)]
    dsimp only
    rw [show ((gpsDemoBuf.drop 98).take 24) =
        u32le 0 ++ u32le 1 ++ u32le 0 ++ u32le 1 ++ u32le 0 ++ u32le 1 from by decide]
    rw [rational_to_floats_encode 0 1 0 1 0 1 (by norm_num) (by norm_num) (by norm_num)
      (by norm_num) (by norm_num) (by norm_num)]
    norm_num [ratDiv, FVal.mulC, FVal.add, f64_cast_u64]
  have hd6 : gps_dispatch ⟨[], 74, gpsDemoBuf⟩ (⟨⟨3/2, 3/2, 0⟩, -1, 1, 5⟩ : GpsLoopState)
      ⟨29, 0, 0, 122⟩ = (.ok ⟨⟨3/2, 3/2, 64924416000⟩, -1, 1, 6⟩, ⟨[], 74, gpsDemoBuf⟩) := by
    unfold gps_dispatch
    rw [if_neg (by decide), if_neg (by decide), if_neg (by decide), if_neg (by decide),
      if_neg (by decide), if_pos (by decide : (29 : Nat) = DATESTAMP)]
    rw [process_datestamp_ok _ _ _ 2020 1 1 (by decide) (by decide) (by decide) (by decide)
      (by decide) (by decide) (by decide)]
  have s1 : process_gps_entries ⟨[], 2, gpsDemoBuf⟩ gpsInitState 6 =
      process_gps_entries ⟨[], 14, gpsDemoBuf⟩ ⟨GpsInfo.new, -1, 1, 1⟩ 5 :=
    process_gps_entries_step _ _ 5 _ _ _ _ (by decide) hd1
  have s2 : process_gps_entries ⟨[], 14, gpsDemoBuf⟩ (⟨GpsInfo.new, -1, 1, 1⟩ : GpsLoopState) 5 =
      process_gps_entries ⟨[], 26, gpsDemoBuf⟩ ⟨⟨3/2, 0, 0⟩, -1, 1, 2⟩ 4 :=
    process_gps_entries_step _ _ 4 _ _ _ _ (by decide) hd2
  have s3 : process_gps_entries ⟨[], 26, gpsDemoBuf⟩
      (⟨⟨3/2, 0, 0⟩, -1, 1, 2⟩ : GpsLoopState) 4 =
      process_gps_entries ⟨[], 38, gpsDemoBuf⟩ ⟨⟨3/2, 0, 0⟩, -1, 1, 3⟩ 3 :=
    process_gps_entries_step _ _ 3 _ _ _ _ (by decide) hd3
  have s4 : process_gps_entries ⟨[], 38, gpsDemoBuf⟩
      (⟨⟨3/2, 0, 0⟩, -1, 1, 3⟩ : GpsLoopState) 3 =
      process_gps_entries ⟨[], 50, gpsDemoBuf⟩ ⟨⟨3/2, 3/2, 0⟩, -1, 1, 4⟩ 2 :=
    process_gps_entries_step _ _ 2 _ _ _ _ (by decide) hd4
  have s5 : process_gps_entries ⟨[], 50, gpsDemoBuf⟩
      (⟨⟨3/2, 3/2, 0⟩, -1, 1, 4⟩ : GpsLoopState) 2 =
      process_gps_entries ⟨[], 62, gpsDemoBuf⟩ ⟨⟨3/2, 3/2, 0⟩, -1, 1, 5⟩ 1 :=
    process_gps_entries_step _ _ 1 _ _ _ _ (by decide) hd5
  have s6 : process_gps_entries ⟨[], 62, gpsDemoBuf⟩
      (⟨⟨3/2, 3/2, 0⟩, -1, 1, 5⟩ : GpsLoopState) 1 =
      process_gps_entries ⟨[], 74, gpsDemoBuf⟩ ⟨⟨3/2, 3/2, 64924416000⟩, -1, 1, 6⟩ 0 :=
    process_gps_entries_step _ _ 0 _ _ _ _ (by decide) hd6
  unfold process_gps_section
  rw [read_u16_ok _ (by decide)]
  dsimp only
  rw [show le16 (gpsDemoBuf.getD 0 0) (gpsDemoBuf.getD (0 + 1) 0) = 6 from by decide]
  rw [s1, s2, s3, s4, s5, s6]
  rw [show process_gps_entries ⟨[], 74, gpsDemoBuf⟩
      (⟨⟨3/2, 3/2, 64924416000⟩, -1, 1, 6⟩ : GpsLoopState) 0 =
      (.ok ⟨⟨3/2, 3/2, 64924416000⟩, -1, 1, 6⟩, ⟨[], 74, gpsDemoBuf⟩) from rfl]
  dsimp only
  rw [if_pos (by rfl : (6 : Nat) = NUM_ESSENTIAL_ENTRIES)]
  norm_num

/-- Claim C4 (evaluation at the failing input): with a zero denominator in
the first rational (numerator 1, denominator 0) the decode does NOT surface
an invalid-data error: `floats_from_rational` returns `Ok` with an infinite
quotient, and `f64_from_ifd` turns it into the saturated-cast coordinate
`u64::MAX / 100000` — again `Ok`, with no error for the file. -/
theorem C4_div_by_zero_not_surfaced :
    floats_from_rational
        ⟨[], 0, u32le 1 ++ u32le 0 ++ u32le 0 ++ u32le 1 ++ u32le 0 ++ u32le 1⟩ 0 =
      (.ok [.inf, .finite 0, .finite 0],
       ⟨[], 0, u32le 1 ++ u32le 0 ++ u32le 0 ++ u32le 1 ++ u32le 0 ++ u32le 1⟩) ∧
    f64_from_ifd
        ⟨[], 0, u32le 1 ++ u32le 0 ++ u32le 0 ++ u32le 1 ++ u32le 0 ++ u32le 1⟩ 0 =
      (.ok ((18446744073709551615 : ℚ) / 100000),
       ⟨[], 0, u32le 1 ++ u32le 0 ++ u32le 0 ++ u32le 1 ++ u32le 0 ++ u32le 1⟩) := by
  have h := floats_from_rational_ok
      (⟨[], 0, u32le 1 ++ u32le 0 ++ u32le 0 ++ u32le 1 ++ u32le 0 ++ u32le 1⟩ :
        BufReader) 0 (by decide) (by decide)
  have hv : rational_to_floats
      (List.take 24 (List.drop 0 (u32le 1 ++ u32le 0 ++ u32le 0 ++ u32le 1 ++ u32le 0 ++ u32le 1))) =
      [FVal.inf, FVal.finite 0, FVal.finite 0] := by
    rw [show List.take 24 (List.drop 0
          (u32le 1 ++ u32le 0 ++ u32le 0 ++ u32le 1 ++ u32le 0 ++ u32le 1)) =
        u32le 1 ++ u32le 0 ++ u32le 0 ++ u32le 1 ++ u32le 0 ++ u32le 1 from by decide]
    rw [rational_to_floats_encode 1 0 0 1 0 1 (by norm_num) (by norm_num) (by norm_num)
      (by norm_num) (by norm_num) (by norm_num)]
    norm_num [ratDiv]
  refine ⟨by rw [h, hv], ?_⟩
  unfold f64_from_ifd
  rw [h, hv]
  norm_num [FVal.add, FVal.mulC, FVal.divC, f64_cast_u64]

/-- Claim C9 (amended): for every rational triple of `u32` pairs with
nonzero denominators, the decoded coordinate equals
`degrees + (minutes*60 + seconds)/3600` TRUNCATED toward zero at 5 decimal
digits (the `as u64` cast floors; it does not round to nearest), and the
quadrant sign is applied afterwards: on the demo GPS section, the latitude
1.5 with quadrant S comes out as -1.5 while the longitude 1.5 with
quadrant E stays positive. -/
theorem C9_coordinate_truncation (b : BufReader) (off n0 d0 n1 d1 n2 d2 : Nat)
    (hbytes : (b.buffer.drop off).take 24 =
        u32le n0 ++ u32le d0 ++ u32le n1 ++ u32le d1 ++ u32le n2 ++ u32le d2)
    (b0 : n0 < 4294967296) (b1 : d0 < 4294967296) (b2 : n1 < 4294967296)
    (b3 : d1 < 4294967296) (b4 : n2 < 4294967296) (b5 : d2 < 4294967296)
    (hd0 : d0 ≠ 0) (hd1 : d1 ≠ 0) (hd2 : d2 ≠ 0)
    (ho1 : off < b.buffer.length) (ho2 : off + 24 ≤ b.buffer.length) :
    f64_from_ifd b off =
      (.ok ((⌊((n0 : ℚ) / d0 + ((n1 : ℚ) / d1 * 60 + (n2 : ℚ) / d2) / 3600) * 100000⌋₊ : ℚ)
              / 100000), b) ∧
    process_gps_section ⟨[], 0, gpsDemoBuf⟩ =
      (.ok ⟨-(3/2 : ℚ), 3/2, 64924416000⟩, ⟨[], 74, gpsDemoBuf⟩) :=
  ⟨f64_from_ifd_truncation b off n0 d0 n1 d1 n2 d2 hbytes b0 b1 b2 b3 b4 b5 hd0 hd1 hd2 ho1 ho2,
   gpsDemo_eval⟩

/-- Counterexample for C9 as stated: with degrees 0/1, minutes 0/1 and
seconds 243/2500 the combined value is 0.000027; the code truncates the
5-digit scaling and yields 0.00002, while rounding to 5 decimal digits (as
the claim states) gives 0.00003. -/
theorem C9_counterexample :
    (f64_from_ifd ⟨[], 0,
        [0, 0, 0, 0, 1, 0, 0, 0, 0, 0, 0, 0, 1, 0, 0, 0, 243, 0, 0, 0, 196, 9, 0, 0]⟩ 0).1 =
      .ok (1 / 50000 : ℚ) ∧
    ((round ((((0 : ℚ) / 1 + ((0 : ℚ) / 1 * 60 + 243 / 2500) / 3600)) * 100000) : ℚ) / 100000 =
      3 / 100000) ∧
    (1 / 50000 : ℚ) ≠ 3 / 100000 := by
  refine ⟨?_, ?_, by norm_num⟩
  · have h := f64_from_ifd_truncation
      ⟨[], 0, [0, 0, 0, 0, 1, 0, 0, 0, 0, 0, 0, 0, 1, 0, 0, 0, 243, 0, 0, 0, 196, 9, 0, 0]⟩
      0 0 1 0 1 243 2500 (by decide) (by decide) (by decide) (by decide) (by decide)
      (by decide) (by decide) (by decide) (by decide) (by decide) (by decide) (by decide)
    rw [h]
    have hv : (((0 : Nat) : ℚ) / ((1 : Nat) : ℚ)
        + (((0 : Nat) : ℚ) / ((1 : Nat) : ℚ) * 60 + ((243 : Nat) : ℚ) / ((2500 : Nat) : ℚ))
          / 3600) * 100000 = 27 / 10 := by push_cast; norm_num
    rw [hv]
    have hf : ⌊(27 / 10 : ℚ)⌋₊ = 2 := by
      rw [Nat.floor_eq_iff (by positivity)]
      norm_num
    rw [hf]
    norm_num
  · norm_num [round_eq]

-- Witness for C9 on the demo rational triple (1, 30, 0 over denominators 1).
set_option maxRecDepth 8000 in
theorem C9_coordinate_truncation_witness :
    ((gpsDemoBuf.drop 74).take 24 =
        u32le 1 ++ u32le 1 ++ u32le 30 ++ u32le 1 ++ u32le 0 ++ u32le 1) ∧
    (f64_from_ifd ⟨[], 0, gpsDemoBuf⟩ 74 =
       (.ok ((⌊(((1 : Nat) : ℚ) / ((1 : Nat) : ℚ)
           + (((30 : Nat) : ℚ) / ((1 : Nat) : ℚ) * 60 + ((0 : Nat) : ℚ) / ((1 : Nat) : ℚ))
             / 3600) * 100000⌋₊ : ℚ) / 100000), ⟨[], 0, gpsDemoBuf⟩) ∧
     process_gps_section ⟨[], 0, gpsDemoBuf⟩ =
       (.ok ⟨-(3/2 : ℚ), 3/2, 64924416000⟩, ⟨[], 74, gpsDemoBuf⟩)) :=
  ⟨by decide,
   C9_coordinate_truncation ⟨[], 0, gpsDemoBuf⟩ 74 1 1 30 1 0 1 (by decide) (by decide)
     (by decide) (by decide) (by decide) (by decide) (by decide) (by decide) (by decide)
     (by decide) (by decide) (by decide)⟩

lemma file_read_tag_eval (bytes : List Nat) (p : Nat) (hp : p + 2 ≤ bytes.length) :
    file_read_tag ⟨bytes, p⟩ = (be16 (bytes.getD p 0) (bytes.getD (p + 1) 0), ⟨bytes, p + 2⟩) := by
  unfold file_read_tag
  simp only [Prod.mk.injEq, FileState.mk.injEq, true_and, and_true]
  omega

/-- Claim C6 (amended): a declared JPEG segment length below 2, and an APP1
segment whose declared length is below 8 (so that the payload is smaller
than the 6-byte Exif-identifier advance), both reach an unchecked `u16`
subtraction: the arithmetic underflow aborts via the overflow check (panic;
in a release build it would silently wrap) — it is NOT surfaced to the
caller as an `io::Error`, fatal or otherwise. -/
theorem C6_underflow_panics (m1 m2 l1 l2 a1 a2 : Nat) (rest : List Nat) :
    (be16 m1 m2 ≠ SOS → be16 l1 l2 < 2 →
       parse_file ([255, 216, m1, m2, l1, l2] ++ rest) = .error .panic) ∧
    (2 ≤ be16 a1 a2 → be16 a1 a2 < 8 →
       parse_file ([255, 216, 255, 225, a1, a2] ++ rest) = .error .panic) := by
  constructor
  · intro hm hl
    unfold parse_file
    dsimp only
    rw [file_read_tag_eval _ 0 (by simp)]
    dsimp only
    rw [show be16 (([255, 216, m1, m2, l1, l2] ++ rest).getD 0 0)
          (([255, 216, m1, m2, l1, l2] ++ rest).getD (0 + 1) 0) = SOI from by rfl]
    rw [if_pos rfl]
    simp only [parse_loop]
    rw [file_read_tag_eval _ 2 (by simp)]
    dsimp only
    rw [show ([255, 216, m1, m2, l1, l2] ++ rest).getD 2 0 = m1 from rfl,
        show ([255, 216, m1, m2, l1, l2] ++ rest).getD (2 + 1) 0 = m2 from rfl]
    rw [if_neg hm]
    rw [file_read_tag_eval _ 4 (by simp)]
    dsimp only
    rw [show ([255, 216, m1, m2, l1, l2] ++ rest).getD 4 0 = l1 from rfl,
        show ([255, 216, m1, m2, l1, l2] ++ rest).getD (4 + 1) 0 = l2 from rfl]
    unfold checked_sub
    rw [if_neg (by omega)]
  · intro h2 h8
    unfold parse_file
    dsimp only
    rw [file_read_tag_eval _ 0 (by simp)]
    dsimp only
    rw [show be16 (([255, 216, 255, 225, a1, a2] ++ rest).getD 0 0)
          (([255, 216, 255, 225, a1, a2] ++ rest).getD (0 + 1) 0) = SOI from by rfl]
    rw [if_pos rfl]
    simp only [parse_loop]
    rw [file_read_tag_eval _ 2 (by simp)]
    dsimp only
    rw [show ([255, 216, 255, 225, a1, a2] ++ rest).getD 2 0 = 255 from rfl,
        show ([255, 216, 255, 225, a1, a2] ++ rest).getD (2 + 1) 0 = 225 from rfl]
    rw [if_neg (by decide : ¬ be16 255 225 = SOS)]
    rw [file_read_tag_eval _ 4 (by simp)]
    dsimp only
    rw [show ([255, 216, 255, 225, a1, a2] ++ rest).getD 4 0 = a1 from rfl,
        show ([255, 216, 255, 225, a1, a2] ++ rest).getD (4 + 1) 0 = a2 from rfl]
    rw [show checked_sub (be16 a1 a2) 2 = .ok (be16 a1 a2 - 2) from by
          unfold checked_sub; rw [if_pos (by omega)]]
    dsimp only
    rw [if_pos (by decide : be16 255 225 = APP1)]
    unfold handle_app1
    dsimp only
    rw [show checked_sub (be16 a1 a2 - 2) ADVANCE = .error .panic from by
          unfold checked_sub ADVANCE
          rw [if_neg (by omega)]]

/-- Counterexample for C6 as stated: a JPEG whose first segment declares
length 1 makes the program panic on `length - 2` (debug overflow check)
instead of returning a fatal error to the caller. -/
theorem C6_counterexample :
    parse_file [255, 216, 255, 224, 0, 1] = .error .panic := by decide

-- Witness for C6 at two concrete malformed files.
theorem C6_underflow_panics_witness :
    (¬ be16 255 224 = SOS ∧ be16 0 1 < 2 ∧
       parse_file ([255, 216, 255, 224, 0, 1] ++ []) = .error .panic) ∧
    (2 ≤ be16 0 5 ∧ be16 0 5 < 8 ∧
       parse_file ([255, 216, 255, 225, 0, 5] ++ []) = .error .panic) :=
  ⟨⟨by decide, by decide,
    (C6_underflow_panics 255 224 0 1 0 5 []).1 (by decide) (by decide)⟩,
   ⟨by decide, by decide,
    (C6_underflow_panics 255 224 0 1 0 5 []).2 (by decide) (by decide)⟩⟩

/-- The haversine value of `distance_from` between two waypoints on the
equator: for longitudes `b ≤ a` (in degrees, less than 180 apart), the
pre-truncation distance is exactly `6371000 * (a - b) * pi / 180`. -/
lemma distance_f64_equator (a b : ℚ) (t u : Nat) (hab : b ≤ a)
    (hlt : (a : ℝ) - (b : ℝ) < 180) :
    distance_from_f64 ⟨0, a, t⟩ ⟨0, b, u⟩ =
      6371000 * (((a : ℝ) - (b : ℝ)) * Real.pi / 180) := by
  have hd : (0 : ℝ) ≤ (a : ℝ) - (b : ℝ) := by
    have hba : (b : ℝ) ≤ (a : ℝ) := by exact_mod_cast hab
    linarith
  set x : ℝ := ((a : ℝ) - (b : ℝ)) * Real.pi / 360 with hxdef
  have hx0 : 0 ≤ x := by
    rw [hxdef]
    apply div_nonneg _ (by norm_num)
    exact mul_nonneg hd Real.pi_pos.le
  have hx2 : x < Real.pi / 2 := by
    have h1 : ((a : ℝ) - (b : ℝ)) * Real.pi < 180 * Real.pi :=
      mul_lt_mul_of_pos_right hlt Real.pi_pos
    have h2 : x < 180 * Real.pi / 360 := by
      rw [hxdef]
      exact (div_lt_div_iff_of_pos_right (by norm_num)).mpr h1
    calc x < 180 * Real.pi / 360 := h2
      _ = Real.pi / 2 := by ring
  have hxpi : x ≤ Real.pi := by linarith [Real.pi_pos]
  have hsin : 0 ≤ Real.sin x := Real.sin_nonneg_of_nonneg_of_le_pi hx0 hxpi
  have hcos : 0 < Real.cos x := Real.cos_pos_of_mem_Ioo ⟨by linarith [Real.pi_pos], hx2⟩
  unfold distance_from_f64
  dsimp only
  rw [show ((0 : ℚ) : ℝ) * Real.pi / 180 = 0 from by push_cast; ring]
  rw [show ((0 : ℝ) - 0) / 2 = 0 from by ring]
  rw [Real.sin_zero, Real.cos_zero]
  rw [show (((a : ℚ) : ℝ) * Real.pi / 180 - ((b : ℚ) : ℝ) * Real.pi / 180) / 2 = x from by
        rw [hxdef]; ring]
  rw [show (0 : ℝ) * 0 + 1 * 1 * Real.sin x * Real.sin x = Real.sin x * Real.sin x from by ring]
  rw [Real.sqrt_mul_self hsin]
  rw [show 1 - Real.sin x * Real.sin x = Real.cos x * Real.cos x from by
        nlinarith [Real.sin_sq_add_cos_sq x]]
  rw [Real.sqrt_mul_self hcos.le]
  unfold atan2
  rw [if_pos hcos]
  rw [← Real.tan_eq_sin_div_cos]
  rw [Real.arctan_tan (by linarith [Real.pi_pos]) hx2]
  rw [hxdef]
  ring

lemma filter_tail_eq_zip (prev : GpsInfo) (l : List GpsInfo) :
    filter_tail prev l =
      (l.zip (prev :: l)).filterMap
        (fun p => if p.1.distance_from p.2 > DISTANCE_DIFF then some p.1 else none) := by
  induction l generalizing prev with
  | nil => rfl
  | cons w ws ih =>
    simp only [filter_tail, List.zip_cons_cons, List.filterMap_cons]
    by_cases hd : w.distance_from prev > DISTANCE_DIFF
    · simp only [if_pos hd, ih w]
    · simp only [if_neg hd, ih w]

/-- Claim C1 (amended): on the sorted waypoint list, the filter of
`print_xml` keeps the first waypoint and keeps each later waypoint exactly
when its truncated haversine distance to the immediately preceding waypoint
IN THE SORTED LIST (whether or not that one was kept) exceeds 5 meters;
the comparison is `wp[i].distance_from(wp[i-1])`, not a comparison against
the previous KEPT waypoint, and it uses the `u32`-truncated distance. -/
theorem C1_duplicate_filter (l : List GpsInfo)
    (_hs : l.Sorted (fun a b => a.time ≤ b.time)) :
    print_xml_filter l =
      match l with
      | [] => none
      | w0 :: rest =>
        some (w0 :: (rest.zip (w0 :: rest)).filterMap
          (fun p => if p.1.distance_from p.2 > DISTANCE_DIFF then some p.1 else none)) := by
  cases l with
  | nil => rfl
  | cons w0 rest =>
    simp only [print_xml_filter]
    rw [filter_tail_eq_zip]

/-- Counterexample for C1 as stated: three waypoints on the equator at
longitudes 0, 0.000036 and 0.000072 degrees (about 4 meters apart each, 8
meters between the outer two), sorted by time.  The code drops BOTH later
waypoints (each is within 5 meters of its sorted predecessor), while the
claimed keep-against-last-KEPT policy with the 5 meter haversine threshold
keeps the third (8 meters from the first, which is the last kept one). -/
theorem C1_counterexample :
    List.Sorted (fun a b : GpsInfo => a.time ≤ b.time)
      [⟨0, 0, 0⟩, ⟨0, 9/250000, 1⟩, ⟨0, 9/125000, 2⟩] ∧
    print_xml_filter [⟨0, 0, 0⟩, ⟨0, 9/250000, 1⟩, ⟨0, 9/125000, 2⟩] = some [⟨0, 0, 0⟩] ∧
    claim_filter [⟨0, 0, 0⟩, ⟨0, 9/250000, 1⟩, ⟨0, 9/125000, 2⟩] =
      [⟨0, 0, 0⟩, ⟨0, 9/125000, 2⟩] ∧
    print_xml_filter [⟨0, 0, 0⟩, ⟨0, 9/250000, 1⟩, ⟨0, 9/125000, 2⟩] ≠
      some (claim_filter [⟨0, 0, 0⟩, ⟨0, 9/250000, 1⟩, ⟨0, 9/125000, 2⟩]) := by
  have h10 := distance_f64_equator (9/250000) 0 1 0 (by norm_num) (by push_cast; norm_num)
  have h21 := distance_f64_equator (9/125000) (9/250000) 2 1 (by norm_num)
    (by push_cast; norm_num)
  have h20 := distance_f64_equator (9/125000) 0 2 0 (by norm_num) (by push_cast; norm_num)
  have hval1 : distance_from_f64 ⟨0, 9/250000, 1⟩ ⟨0, 0, 0⟩ = 6371 / 5000 * Real.pi := by
    rw [h10]
    push_cast
    ring
  have hval2 : distance_from_f64 ⟨0, 9/125000, 2⟩ ⟨0, 9/250000, 1⟩ =
      6371 / 5000 * Real.pi := by
    rw [h21]
    push_cast
    ring
  have hval3 : distance_from_f64 ⟨0, 9/125000, 2⟩ ⟨0, 0, 0⟩ = 6371 / 2500 * Real.pi := by
    rw [h20]
    push_cast
    ring
  have hsmall : 6371 / 5000 * Real.pi ≤ 5 := by
    have := Real.pi_lt_d2
    nlinarith
  have hbig : ¬ (6371 / 2500 * Real.pi ≤ 5) := by
    have := Real.pi_gt_d2
    push_neg
    nlinarith
  have hf1 : ¬ (GpsInfo.distance_from ⟨0, 9/250000, 1⟩ ⟨0, 0, 0⟩ > DISTANCE_DIFF) := by
    unfold GpsInfo.distance_from DISTANCE_DIFF
    rw [hval1]
    have hle : ⌊6371 / 5000 * Real.pi⌋₊ ≤ ⌊(5 : ℝ)⌋₊ := Nat.floor_le_floor hsmall
    have h5 : ⌊(5 : ℝ)⌋₊ = 5 := by norm_num
    omega
  have hf2 : ¬ (GpsInfo.distance_from ⟨0, 9/125000, 2⟩ ⟨0, 9/250000, 1⟩ > DISTANCE_DIFF) := by
    unfold GpsInfo.distance_from DISTANCE_DIFF
    rw [hval2]
    have hle : ⌊6371 / 5000 * Real.pi⌋₊ ≤ ⌊(5 : ℝ)⌋₊ := Nat.floor_le_floor hsmall
    have h5 : ⌊(5 : ℝ)⌋₊ = 5 := by norm_num
    omega
  have hcode : print_xml_filter [⟨0, 0, 0⟩, ⟨0, 9/250000, 1⟩, ⟨0, 9/125000, 2⟩] =
      some [⟨0, 0, 0⟩] := by
    simp only [print_xml_filter, filter_tail]
    rw [if_neg hf1, if_neg hf2]
  have hclaim : claim_filter [⟨0, 0, 0⟩, ⟨0, 9/250000, 1⟩, ⟨0, 9/125000, 2⟩] =
      [⟨0, 0, 0⟩, ⟨0, 9/125000, 2⟩] := by
    simp only [claim_filter, claim_filter_tail]
    rw [if_pos (by rw [hval1]; exact hsmall), if_neg (by rw [hval3]; exact hbig)]
  refine ⟨by simp [List.sorted_cons], hcode, hclaim, ?_⟩
  rw [hcode, hclaim]
  intro h
  simp at h

-- Witness for C1 on a singleton sorted list.
theorem C1_duplicate_filter_witness :
    List.Sorted (fun a b : GpsInfo => a.time ≤ b.time) [⟨0, 0, 0⟩] ∧
    print_xml_filter [(⟨0, 0, 0⟩ : GpsInfo)] =
      some (⟨0, 0, 0⟩ :: (([] : List GpsInfo).zip [(⟨0, 0, 0⟩ : GpsInfo)]).filterMap
        (fun p => if p.1.distance_from p.2 > DISTANCE_DIFF then some p.1 else none)) :=
  ⟨by simp, C1_duplicate_filter [⟨0, 0, 0⟩] (by simp)⟩

/-- Claim C10: the waypoint-filtering step of `print_xml` accesses `wp[0]`
unconditionally, which is out of bounds exactly when the collected waypoint
list is empty (`print_xml_waypoints` returns `none`, an index panic in
Rust); `main` establishes the precondition: with zero collected waypoints
it prints the no-geotags message and returns before calling `print_xml`,
and with at least one waypoint the access is in bounds and `print_xml`
produces a track. -/
theorem C10_print_xml_precondition (wps : List GpsInfo) :
    (print_xml_waypoints wps = none ↔ wps = []) ∧
    (wps = [] → main_tail wps = .noGeotags) ∧
    (wps ≠ [] → ∃ t, main_tail wps = .wrote (some t)) := by
  have hiff : print_xml_waypoints wps = none ↔ wps = [] := by
    unfold print_xml_waypoints print_xml_filter
    cases hms : wps.mergeSort (fun a b => a.time ≤ b.time) with
    | nil =>
      have hperm := List.mergeSort_perm wps (fun a b => decide (a.time ≤ b.time))
      rw [hms] at hperm
      simp only [eq_self_iff_true, true_iff]
      exact hperm.symm.eq_nil
    | cons w rest =>
      constructor
      · intro hcontra
        cases hcontra
      · intro hwps
        have hperm := List.mergeSort_perm wps (fun a b => decide (a.time ≤ b.time))
        rw [hms, hwps] at hperm
        simpa using hperm.length_eq
  refine ⟨hiff, ?_, ?_⟩
  · intro h
    subst h
    rfl
  · intro h
    cases hopt : print_xml_waypoints wps with
    | none => exact absurd (hiff.mp hopt) h
    | some t =>
      refine ⟨t, ?_⟩
      unfold main_tail
      rw [if_neg (by simpa using h), hopt]

-- Witness for C10 on the empty and a singleton waypoint list.
theorem C10_print_xml_precondition_witness :
    main_tail [] = .noGeotags ∧
    ∃ t, main_tail [(⟨0, 0, 0⟩ : GpsInfo)] = .wrote (some t) :=
  ⟨(C10_print_xml_precondition []).2.1 rfl,
   (C10_print_xml_precondition [⟨0, 0, 0⟩]).2.2 (by simp)⟩
